import Mathlib

/-!
Load-balancer reconciliation of the Baidu cloud provider

A shallow embedding of `pkg/cloud-provider/load_balancer_blb.go` and
`pkg/cloud-provider/load_balancer_vpc.go`.

* A Go string is a sequence of bytes. The strings that the code only compares and
  concatenates are Lean strings, standing for their UTF-8 bytes; `len(s) == 0` is
  `s.length = 0`, since a string has no byte exactly when it has no character. Where the
  code measures and cuts a string by bytes (`len(blbName) > 65`, `blbName[:65]` in
  `createBLB`), the string is taken as its list of bytes, `goBytes`, which may be cut in
  the middle of a character.
* A Go `map[string]string` is an association list, the nil map is `none`.
* The cloud and the helpers of the package that are not among the source files are
  fields of `Baiducloud`: state transformers over an arbitrary cloud state `σ`.
  Every request is appended to `World.calls`, so that theorems can say which requests
  a run issues.
* `time.Sleep` and logging have no effect on the values computed and are left out.
-/

set_option autoImplicit false

namespace CloudProvider

/-! ## Data model -/

/-- Record `blb.LoadBalancer` of the SDK, with the fields this package reads. -/
structure LoadBalancer where
  BlbId : String
  Name : String
  Status : String
  Address : String
deriving DecidableEq, Repr

/-- An error value produced by a collaborator (SDK client or a helper outside the sources). -/
structure ApiError where
  msg : String
deriving DecidableEq, Repr

/-- Error values seen by this package. `errBlbNotExist` is the package variable of
`load_balancer_blb.go:15`, compared by identity in `dealWithError`; `errorf` is a value made
by `fmt.Errorf` in this package; `api` is an error handed back by a collaborator, which is
never the package variable. -/
inductive GoError where
  | errBlbNotExist
  | errorf (msg : String)
  | api (e : ApiError)
deriving DecidableEq, Repr

/-- Method `Error()` of an error value. -/
def GoError.Error : GoError → String
  | .errBlbNotExist => " BLB does not exist during ensuring BLB! "
  | .errorf m => m
  | .api e => e.msg

/-- A Go `map[string]string` that is not nil: key/value pairs, first match wins. -/
abbrev GoMap := List (String × String)

/-- Map read `m[k]` with the presence flag. -/
def GoMap.get (m : GoMap) (k : String) : Option String :=
  match m with
  | [] => none
  | (k1, v) :: rest => if k1 = k then some v else GoMap.get rest k

/-- Builtin `delete(m, k)`. -/
def GoMap.delete (m : GoMap) (k : String) : GoMap :=
  match m with
  | [] => []
  | (k1, v) :: rest => if k1 = k then GoMap.delete rest k else (k1, v) :: GoMap.delete rest k

/-- Map write `m[k] = v`. -/
def GoMap.set (m : GoMap) (k v : String) : GoMap :=
  (k, v) :: GoMap.delete m k

/-- The part of `v1.Service` this package reads and writes. `Annotations = none` is the nil
map. -/
structure Service where
  Namespace : String
  Name : String
  Annotations : Option GoMap
deriving DecidableEq, Repr

/-- A `v1.Node`, handed on to `reconcileBackendServers` only. -/
structure Node where
  Name : String
deriving DecidableEq, Repr

/-- The fields of `ServiceAnnotation` read by `ensureBLB` and `createBLB`. A value of this type
is the argument `serviceAnnotation` of the source, written `svcAnno` below. -/
structure ServiceAnnotation where
  LoadBalancerExistId : String
  CceAutoAddLoadBalancerId : String
  LoadBalancerAllocateVip : String
deriving DecidableEq, Repr

/-- The bytes of a Go string: the UTF-8 encoding of its characters, in order. -/
def goBytes (s : String) : List UInt8 :=
  s.data.flatMap String.utf8EncodeChar

/-- Request `blb.CreateLoadBalancerArgs`. `Name` is kept as bytes, since `createBLB` cuts it
by bytes. -/
structure CreateLoadBalancerArgs where
  Name : List UInt8
  VpcID : String
  SubnetID : String
  Desc : String
  AllocateVip : Bool
deriving DecidableEq, Repr

/-- Response of `CreateLoadBalancer`. -/
structure CreateLoadBalancerResponse where
  LoadBalancerId : String
  Name : List UInt8
  Address : String
deriving DecidableEq, Repr

/-- Request `blb.DescribeLoadBalancersArgs`. -/
structure DescribeLoadBalancersArgs where
  LoadBalancerId : String
  ExactlyMatch : Bool
deriving DecidableEq, Repr

/-- A listener of a load balancer; only the number of listeners is inspected. -/
structure Listener where
  ListenerPort : Nat
deriving DecidableEq, Repr

/-- A cluster instance as listed by `ListInstances`. -/
structure Instance where
  VpcId : String
  SubnetId : String
deriving DecidableEq, Repr

/-- Record `vpc.Subnet`. -/
structure Subnet where
  SubnetID : String
  Name : String
  ZoneName : String
  Cidr : String
  VpcID : String
  SubnetType : String
deriving DecidableEq, Repr

/-- Request `vpc.CreateSubnetArgs`. -/
structure CreateSubnetArgs where
  Name : String
  ZoneName : String
  Cidr : String
  VpcID : String
  SubnetType : String
deriving DecidableEq, Repr

/-- What the helpers `getBCELoadBalancer` and `getBCELoadBalancerById` hand back:
`(lb, exists, err)`. -/
structure GetResult where
  lb : LoadBalancer
  exist : Bool
  err : Option ApiError
deriving DecidableEq, Repr

/-- A request issued to a collaborator. -/
inductive Call where
  | getBCELoadBalancer (name : String)
  | getBCELoadBalancerById (id : String)
  | getAllListeners (lb : LoadBalancer)
  | reconcileListeners (lb : LoadBalancer)
  | reconcileBackendServers (nodes : List Node) (lb : LoadBalancer)
  | CreateLoadBalancer (args : CreateLoadBalancerArgs)
  | DescribeLoadBalancers (args : DescribeLoadBalancersArgs)
  | ListInstances (clusterID : String)
  | DescribeSubnet (subnetId : String)
  | ListSubnet (vpcId : String)
  | CreateSubnet (args : CreateSubnetArgs)
deriving DecidableEq, Repr

/-- The cloud state together with the requests issued so far, oldest first. -/
structure World (σ : Type) where
  st : σ
  calls : List Call

/-- Parsed network `*net.IPNet`: address and mask length. -/
structure IPNet where
  ip : Nat
  ones : Nat
deriving DecidableEq, Repr

/-- The receiver `*Baiducloud`: the cluster id, the SDK client set and everything the two
source files use without defining it. Each collaborator maps a cloud state to its answer
and the next cloud state. -/
structure Baiducloud (σ : Type) where
  ClusterID : String
  /-- Constant `ServiceAnnotationCceAutoAddLoadBalancerId`. -/
  ServiceAnnotationCceAutoAddLoadBalancerId : String
  /-- Constant `ServiceAnnotationLoadBalancerExistId`. -/
  ServiceAnnotationLoadBalancerExistId : String
  /-- Helper `getServiceName`. -/
  getServiceName : Service → String
  getBCELoadBalancer : String → σ → GetResult × σ
  getBCELoadBalancerById : String → σ → GetResult × σ
  getAllListeners : LoadBalancer → σ → Except ApiError (List Listener) × σ
  reconcileListeners : Service → LoadBalancer → σ → Option ApiError × σ
  reconcileBackendServers : Service → List Node → LoadBalancer → σ → Option ApiError × σ
  CreateLoadBalancer : CreateLoadBalancerArgs → σ → Except ApiError CreateLoadBalancerResponse × σ
  DescribeLoadBalancers : DescribeLoadBalancersArgs → σ → Except ApiError (List LoadBalancer) × σ
  ListInstances : String → σ → Except ApiError (List Instance) × σ
  DescribeSubnet : String → σ → Except ApiError Subnet × σ
  ListSubnet : String → σ → Except ApiError (List Subnet) × σ
  CreateSubnet : CreateSubnetArgs → σ → Except ApiError String × σ
  /-- Library function `net.ParseCIDR`: the parsed network or the error. -/
  ParseCIDR : String → Except ApiError IPNet
  /-- Helper `util.NextSubnet`: the next block and the flag `notExist`. -/
  NextSubnet : IPNet → Nat → IPNet × Bool
  /-- Method `(*net.IPNet).String`. -/
  IPNetString : IPNet → String

variable {σ : Type}

/-! ## Requests, recorded -/

/-- Call of `bc.getBCELoadBalancer(name)`. -/
def getBCELoadBalancer (bc : Baiducloud σ) (name : String) (w : World σ) : GetResult × World σ :=
  ((bc.getBCELoadBalancer name w.st).1,
    ⟨(bc.getBCELoadBalancer name w.st).2, w.calls ++ [Call.getBCELoadBalancer name]⟩)

/-- Call of `bc.getBCELoadBalancerById(id)`. -/
def getBCELoadBalancerById (bc : Baiducloud σ) (id : String) (w : World σ) : GetResult × World σ :=
  ((bc.getBCELoadBalancerById id w.st).1,
    ⟨(bc.getBCELoadBalancerById id w.st).2, w.calls ++ [Call.getBCELoadBalancerById id]⟩)

/-- Call of `bc.getAllListeners(lb)`. -/
def getAllListeners (bc : Baiducloud σ) (lb : LoadBalancer) (w : World σ) :
    Except ApiError (List Listener) × World σ :=
  ((bc.getAllListeners lb w.st).1,
    ⟨(bc.getAllListeners lb w.st).2, w.calls ++ [Call.getAllListeners lb]⟩)

/-- Call of `bc.reconcileListeners(service, lb)`. -/
def reconcileListeners (bc : Baiducloud σ) (service : Service) (lb : LoadBalancer)
    (w : World σ) : Option ApiError × World σ :=
  ((bc.reconcileListeners service lb w.st).1,
    ⟨(bc.reconcileListeners service lb w.st).2, w.calls ++ [Call.reconcileListeners lb]⟩)

/-- Call of `bc.reconcileBackendServers(service, nodes, lb)`. -/
def reconcileBackendServers (bc : Baiducloud σ) (service : Service) (nodes : List Node)
    (lb : LoadBalancer) (w : World σ) : Option ApiError × World σ :=
  ((bc.reconcileBackendServers service nodes lb w.st).1,
    ⟨(bc.reconcileBackendServers service nodes lb w.st).2,
      w.calls ++ [Call.reconcileBackendServers nodes lb]⟩)

/-- Call of `bc.clientSet.Blb().CreateLoadBalancer(&args)`. -/
def CreateLoadBalancer (bc : Baiducloud σ) (args : CreateLoadBalancerArgs) (w : World σ) :
    Except ApiError CreateLoadBalancerResponse × World σ :=
  ((bc.CreateLoadBalancer args w.st).1,
    ⟨(bc.CreateLoadBalancer args w.st).2, w.calls ++ [Call.CreateLoadBalancer args]⟩)

/-- Call of `bc.clientSet.Blb().DescribeLoadBalancers(&args)`. -/
def DescribeLoadBalancers (bc : Baiducloud σ) (args : DescribeLoadBalancersArgs) (w : World σ) :
    Except ApiError (List LoadBalancer) × World σ :=
  ((bc.DescribeLoadBalancers args w.st).1,
    ⟨(bc.DescribeLoadBalancers args w.st).2, w.calls ++ [Call.DescribeLoadBalancers args]⟩)

/-- Call of `bc.clientSet.Cce().ListInstances(clusterID)`. -/
def ListInstances (bc : Baiducloud σ) (clusterID : String) (w : World σ) :
    Except ApiError (List Instance) × World σ :=
  ((bc.ListInstances clusterID w.st).1,
    ⟨(bc.ListInstances clusterID w.st).2, w.calls ++ [Call.ListInstances clusterID]⟩)

/-- Call of `bc.clientSet.Vpc().DescribeSubnet(subnetId)`. -/
def DescribeSubnet (bc : Baiducloud σ) (subnetId : String) (w : World σ) :
    Except ApiError Subnet × World σ :=
  ((bc.DescribeSubnet subnetId w.st).1,
    ⟨(bc.DescribeSubnet subnetId w.st).2, w.calls ++ [Call.DescribeSubnet subnetId]⟩)

/-- Call of `bc.clientSet.Vpc().ListSubnet(params)` with `params["vpcId"] = vpcId`. -/
def ListSubnet (bc : Baiducloud σ) (vpcId : String) (w : World σ) :
    Except ApiError (List Subnet) × World σ :=
  ((bc.ListSubnet vpcId w.st).1,
    ⟨(bc.ListSubnet vpcId w.st).2, w.calls ++ [Call.ListSubnet vpcId]⟩)

/-- Call of `bc.clientSet.Vpc().CreateSubnet(args)`. -/
def CreateSubnet (bc : Baiducloud σ) (args : CreateSubnetArgs) (w : World σ) :
    Except ApiError String × World σ :=
  ((bc.CreateSubnet args w.st).1,
    ⟨(bc.CreateSubnet args w.st).2, w.calls ++ [Call.CreateSubnet args]⟩)

/-! ## `waitForLoadBalancer` and `dealWithError` -/

/-- What `waitForLoadBalancer` returns: the pointer (nil is `none`) and the error. -/
abbrev WaitRet := Option LoadBalancer × Option GoError

/-- One pass through the body of the loop of `waitForLoadBalancer`
(`load_balancer_blb.go:196-215`) at counter `index` with cached record `lb`: either the
function returns (`Sum.inl`) or the loop goes on with a cached record (`Sum.inr`). -/
def waitForLoadBalancerBody (bc : Baiducloud σ) (index : Nat) (lb : LoadBalancer) (w : World σ) :
    (WaitRet ⊕ LoadBalancer) × World σ :=
  let r := getBCELoadBalancerById bc lb.BlbId w
  let newlb := r.1.lb
  match r.1.err with
  | some e => (Sum.inl (some newlb, some (GoError.api e)), r.2)
  | none =>
    if r.1.exist = false then
      if index ≥ 9 then (Sum.inl (some newlb, some GoError.errBlbNotExist), r.2)
      else (Sum.inr lb, r.2)
    else
      if index ≥ 9 ∧ newlb.Status ≠ "available" then
        (Sum.inl (none, some (GoError.errorf "waitForLoadBalancer failed after retry")), r.2)
      else (Sum.inr newlb, r.2)

/-- The loop `for index := 0; (index < 10) && (lb.Status != "available"); index++` from
counter `index` on. The first argument bounds the number of passes; the loop needs at most
`10 - index` of them. -/
def waitForLoadBalancerLoop (bc : Baiducloud σ) :
    Nat → Nat → LoadBalancer → World σ → WaitRet × World σ
  | 0, _, lb, w => ((some lb, none), w)
  | n + 1, index, lb, w =>
    if index < 10 ∧ lb.Status ≠ "available" then
      match waitForLoadBalancerBody bc index lb w with
      | (Sum.inl ret, w1) => (ret, w1)
      | (Sum.inr lb1, w1) => waitForLoadBalancerLoop bc n (index + 1) lb1 w1
    else ((some lb, none), w)

/-- Function `waitForLoadBalancer` (`load_balancer_blb.go:193-218`). -/
def waitForLoadBalancer (bc : Baiducloud σ) (lb : LoadBalancer) (w : World σ) :
    WaitRet × World σ :=
  waitForLoadBalancerLoop bc 10 0 { lb with Status := "unknown" } w

/-- Function `dealWithError` (`load_balancer_blb.go:220-228`): the service after the call. -/
def dealWithError (bc : Baiducloud σ) (err : GoError) (service : Service) : Service :=
  match err with
  | GoError.errBlbNotExist =>
    match service.Annotations with
    | some m =>
      { service with Annotations := some (m.delete bc.ServiceAnnotationCceAutoAddLoadBalancerId) }
    | none => service
  | _ => service

/-! ## `getVpcInfoForBLB` (`load_balancer_vpc.go`) -/

/-- What `getVpcInfoForBLB` returns: `(vpcId, subnetId, err)`. -/
abbrev VpcRet := (String × String) × Option GoError

/-- The scan of `load_balancer_vpc.go:68-75`: the first subnet of the list that carries one
of the two reserved names. -/
def findReservedSubnet : List Subnet → Option Subnet
  | [] => none
  | subnet :: rest =>
    if subnet.Name = "系统预定义子网" then some subnet
    else if subnet.Name = "CCE-Reserve" then some subnet
    else findReservedSubnet rest

/-- The request built at `load_balancer_vpc.go:90-96`. -/
def reserveSubnetArgs (subnet : Subnet) (cidr : String) : CreateSubnetArgs :=
  { Name := "CCE-Reserve", ZoneName := subnet.ZoneName, Cidr := cidr, VpcID := subnet.VpcID,
    SubnetType := "BCC" }

/-- The loop `for { ... }` of `load_balancer_vpc.go:79-104`. It has no bound of its own; the
first argument bounds the number of passes, and the answer is `none` when the loop is still
running after that many. The world is returned in either case. -/
def getVpcInfoForBLBLoop (bc : Baiducloud σ) (subnet : Subnet) :
    Nat → String → World σ → Option VpcRet × World σ
  | 0, _, w => (none, w)
  | fuel + 1, currentCidr, w =>
    match bc.ParseCIDR currentCidr with
    | Except.error e => (some (("", ""), some (GoError.errorf ("ParseCIDR failed: " ++ e.msg))), w)
    | Except.ok cidr =>
      let mask := cidr.ones
      let next := bc.NextSubnet cidr mask
      if next.2 = true then
        (some (("", ""), some (GoError.errorf "NextSubnet failed: <nil>")), w)
      else
        let r := CreateSubnet bc (reserveSubnetArgs subnet (bc.IPNetString next.1)) w
        match r.1 with
        | Except.error _ => getVpcInfoForBLBLoop bc subnet fuel (bc.IPNetString next.1) r.2
        | Except.ok newSubnetId => (some ((subnet.VpcID, newSubnetId), none), r.2)

/-- Function `getVpcInfoForBLB` (`load_balancer_vpc.go:40-105`); `fuel` bounds the passes of
its last loop. -/
def getVpcInfoForBLB (bc : Baiducloud σ) (fuel : Nat) (w : World σ) : Option VpcRet × World σ :=
  let r1 := ListInstances bc bc.ClusterID w
  match r1.1 with
  | Except.error e => (some (("", ""), some (GoError.api e)), r1.2)
  | Except.ok [] =>
    (some (("", ""),
      some (GoError.errorf "getVpcInfoForBLB failed since instance num is zero")), r1.2)
  | Except.ok (ins0 :: _) =>
    let r2 := DescribeSubnet bc ins0.SubnetId r1.2
    match r2.1 with
    | Except.error e =>
      (some (("", ""), some (GoError.errorf ("DescribeSubnet failed: " ++ e.msg))), r2.2)
    | Except.ok subnet =>
      if subnet.SubnetType = "BCC" then (some ((ins0.VpcId, ins0.SubnetId), none), r2.2)
      else
        let r3 := ListSubnet bc subnet.VpcID r2.2
        match r3.1 with
        | Except.error e =>
          (some (("", ""), some (GoError.errorf ("ListSubnet failed: " ++ e.msg))), r3.2)
        | Except.ok subnets =>
          match findReservedSubnet subnets with
          | some found => (some ((found.VpcID, found.SubnetID), none), r3.2)
          | none => getVpcInfoForBLBLoop bc subnet fuel subnet.Cidr r3.2

/-! ## `createBLB` and `describeBLB` -/

/-- The request built at `load_balancer_blb.go:137-152`. -/
def createBLBArgs (bc : Baiducloud σ) (service : Service) (svcAnno : ServiceAnnotation)
    (vpcID subnetID : String) : CreateLoadBalancerArgs :=
  let allocateVip := decide (svcAnno.LoadBalancerAllocateVip = "true")
  let blbName := goBytes (bc.ClusterID ++ "/" ++ bc.getServiceName service)
  let blbName := if blbName.length > 65 then blbName.take 65 else blbName
  { Name := blbName, VpcID := vpcID, SubnetID := subnetID,
    Desc := "auto generated by cce:" ++ bc.ClusterID, AllocateVip := allocateVip }

/-- Function `createBLB` (`load_balancer_blb.go:130-160`): `(id, err)`, or `none` when the
subnet loop is still running after `fuel` passes. The source hands its `serviceAnnotation` to
`getVpcInfoForBLB`; the function of `load_balancer_vpc.go` takes no argument and is called
as it stands. -/
def createBLB (bc : Baiducloud σ) (fuel : Nat) (service : Service)
    (svcAnno : ServiceAnnotation) (w : World σ) :
    Option (String × Option GoError) × World σ :=
  let r1 := getVpcInfoForBLB bc fuel w
  match r1.1 with
  | none => (none, r1.2)
  | some (_, some err) =>
    (some ("", some (GoError.errorf (" Can't get VPC info for BLB: " ++ err.Error ++ "\n "))),
      r1.2)
  | some ((vpcID, subnetID), none) =>
    let r2 := CreateLoadBalancer bc (createBLBArgs bc service svcAnno vpcID subnetID)
      r1.2
    match r2.1 with
    | Except.error e => (some ("", some (GoError.api e)), r2.2)
    | Except.ok resp => (some (resp.LoadBalancerId, none), r2.2)

/-- What `describeBLB` returns: the slice (nil is `[]`) and the error. -/
abbrev DescribeRet := List LoadBalancer × Option GoError

/-- The retry loop of `load_balancer_blb.go:173-188`, by the number `left` of retries that
remain: the counter `tryCount` of the source is `10 - left` on entry, so `tryCount > 10`
after the increment means that none remains. -/
def describeBLBLoop (bc : Baiducloud σ) (argsDesc : DescribeLoadBalancersArgs) :
    Nat → World σ → DescribeRet × World σ
  | 0, w =>
    (([], some (GoError.errorf "EnsureLoadBalancer create blb success but query get none")), w)
  | left + 1, w =>
    let r := DescribeLoadBalancers bc argsDesc w
    match r.1 with
    | Except.error e => (([], some (GoError.api e)), r.2)
    | Except.ok lbs =>
      if lbs.length = 1 then ((lbs, none), r.2)
      else describeBLBLoop bc argsDesc left r.2

/-- Function `describeBLB` (`load_balancer_blb.go:162-191`). -/
def describeBLB (bc : Baiducloud σ) (loadbalancerid : String) (_service : Service)
    (w : World σ) : DescribeRet × World σ :=
  let argsDesc : DescribeLoadBalancersArgs :=
    { LoadBalancerId := loadbalancerid, ExactlyMatch := true }
  let r := DescribeLoadBalancers bc argsDesc w
  match r.1 with
  | Except.error e => (([], some (GoError.api e)), r.2)
  | Except.ok lbs =>
    if lbs.length ≠ 1 then describeBLBLoop bc argsDesc 10 r.2
    else ((lbs, none), r.2)

/-! ## `ensureBLB` -/

/-- How a call of `ensureBLB` ends. -/
inductive Outcome where
  /-- The function returned `(lb, err)`. -/
  | ret (lb : Option LoadBalancer) (err : Option GoError)
  /-- A run-time panic: a write to a nil map, an index out of range, a nil dereference. -/
  | panicked
  /-- The subnet loop of `getVpcInfoForBLB` was still running when the fuel ran out. -/
  | running
deriving DecidableEq, Repr

/-- The end of a call of `ensureBLB`: the outcome, the service and the parsed annotations
(both are reached through pointers and written by the call), and the world. -/
structure Final (σ : Type) where
  out : Outcome
  service : Service
  svcAnno : ServiceAnnotation
  w : World σ

/-- The local state of `ensureBLB` at line 100: the pointer `lb` (nil is `none`), the
service, the parsed annotations and the world. -/
structure Resolved (σ : Type) where
  lb : Option LoadBalancer
  service : Service
  svcAnno : ServiceAnnotation
  w : World σ

/-- Read of `service.Annotations[k]` with the presence flag; a nil map holds no key. -/
def Service.lookup (service : Service) (k : String) : Option String :=
  match service.Annotations with
  | none => none
  | some m => m.get k

/-- The guarded write of lines 40-43 and 60-63: make the map when it is nil, then store. -/
def Service.withAnnotation (service : Service) (k v : String) : Service :=
  match service.Annotations with
  | none => { service with Annotations := some (GoMap.set [] k v) }
  | some m => { service with Annotations := some (m.set k v) }

/-- Lines 30-45 of `ensureBLB`: with no auto-managed identifier, look the load balancer up
by its logical name and bind it when found. -/
def ensureBLBLookup (bc : Baiducloud σ) (service : Service)
    (svcAnno : ServiceAnnotation) (w : World σ) : Final σ ⊕ Resolved σ :=
  if svcAnno.CceAutoAddLoadBalancerId.length = 0 then
    let r := getBCELoadBalancer bc (bc.ClusterID ++ "/" ++ bc.getServiceName service) w
    match r.1.err with
    | some e => Sum.inl ⟨Outcome.ret none (some (GoError.api e)), service, svcAnno, r.2⟩
    | none =>
      if r.1.exist = true then
        Sum.inr ⟨some r.1.lb,
          service.withAnnotation bc.ServiceAnnotationCceAutoAddLoadBalancerId r.1.lb.BlbId,
          { svcAnno with CceAutoAddLoadBalancerId := r.1.lb.BlbId }, r.2⟩
      else Sum.inr ⟨some r.1.lb, service, svcAnno, r.2⟩
  else Sum.inr ⟨none, service, svcAnno, w⟩

/-- Lines 47-74 of `ensureBLB`: create a load balancer when there is still no auto-managed
identifier, else resolve the identifier unless the lookup by name already gave the record. -/
def ensureBLBCreateOrGet (bc : Baiducloud σ) (fuel : Nat) (s : Resolved σ) :
    Final σ ⊕ Resolved σ :=
  if s.svcAnno.CceAutoAddLoadBalancerId.length = 0 then
    let r1 := createBLB bc fuel s.service s.svcAnno s.w
    match r1.1 with
    | none => Sum.inl ⟨Outcome.running, s.service, s.svcAnno, r1.2⟩
    | some (_, some err) =>
      Sum.inl ⟨Outcome.ret none (some err), s.service, s.svcAnno, r1.2⟩
    | some (loadbalancerid, none) =>
      let r2 := describeBLB bc loadbalancerid s.service r1.2
      match r2.1 with
      | (_, some err) =>
        Sum.inl ⟨Outcome.ret none (some err), s.service, s.svcAnno, r2.2⟩
      | ([], none) => Sum.inl ⟨Outcome.panicked, s.service, s.svcAnno, r2.2⟩
      | (lb0 :: _, none) =>
        Sum.inr ⟨some lb0,
          s.service.withAnnotation bc.ServiceAnnotationCceAutoAddLoadBalancerId lb0.BlbId,
          s.svcAnno, r2.2⟩
  else if s.lb = none then
    let r := getBCELoadBalancerById bc s.svcAnno.CceAutoAddLoadBalancerId s.w
    match r.1.err with
    | some e =>
      Sum.inl ⟨Outcome.ret none (some (GoError.api e)), s.service, s.svcAnno, r.2⟩
    | none =>
      if r.1.exist = false then
        Sum.inl ⟨Outcome.ret none (some (GoError.errorf
          ("EnsureLoadBalancer getBCELoadBalancerById failed, target blb not exist, blb id: "
            ++ s.svcAnno.CceAutoAddLoadBalancerId))),
          s.service, s.svcAnno, r.2⟩
      else Sum.inr ⟨some r.1.lb, s.service, s.svcAnno, r.2⟩
  else Sum.inr s

/-- Lines 76-98 of `ensureBLB`: the load balancer is named by `LoadBalancerExistId`. -/
def ensureBLBExist (bc : Baiducloud σ) (service : Service)
    (svcAnno : ServiceAnnotation) (w : World σ) : Final σ ⊕ Resolved σ :=
  let r := getBCELoadBalancerById bc svcAnno.LoadBalancerExistId w
  match r.1.err with
  | some e => Sum.inl ⟨Outcome.ret none (some (GoError.api e)), service, svcAnno, r.2⟩
  | none =>
    if r.1.exist = false then
      Sum.inl ⟨Outcome.ret none (some (GoError.errorf
        ("EnsureLoadBalancer getBCELoadBalancerById failed, target blb not exist, blb id: "
          ++ svcAnno.CceAutoAddLoadBalancerId))),
        service, svcAnno, r.2⟩
    else
      let r2 := getAllListeners bc r.1.lb r.2
      match r2.1 with
      | Except.error e =>
        Sum.inl ⟨Outcome.ret none (some (GoError.api e)), service, svcAnno, r2.2⟩
      | Except.ok allListeners =>
        if allListeners.length > 0 ∧ svcAnno.CceAutoAddLoadBalancerId.length = 0 then
          match service.Annotations with
          | none => Sum.inl ⟨Outcome.panicked, service, svcAnno, r2.2⟩
          | some m =>
            Sum.inl ⟨Outcome.ret none (some (GoError.errorf " This blb has been used already! ")),
              { service with
                Annotations := some
                  (m.set bc.ServiceAnnotationLoadBalancerExistId "error_blb_has_been_used") },
              svcAnno, r2.2⟩
        else
          match service.Annotations with
          | none => Sum.inl ⟨Outcome.panicked, service, svcAnno, r2.2⟩
          | some m =>
            Sum.inr ⟨some r.1.lb,
              { service with
                Annotations := some
                  (m.set bc.ServiceAnnotationCceAutoAddLoadBalancerId
                    svcAnno.LoadBalancerExistId) },
              svcAnno, r2.2⟩

/-- Lines 29-98 of `ensureBLB`: find or create the load balancer to work on. -/
def ensureBLBResolve (bc : Baiducloud σ) (fuel : Nat) (service : Service)
    (svcAnno : ServiceAnnotation) (w : World σ) : Final σ ⊕ Resolved σ :=
  if svcAnno.LoadBalancerExistId.length = 0 then
    match ensureBLBLookup bc service svcAnno w with
    | Sum.inl fin => Sum.inl fin
    | Sum.inr s => ensureBLBCreateOrGet bc fuel s
  else ensureBLBExist bc service svcAnno w

/-- Lines 100-104, 112-116 and 123-127 of `ensureBLB`: wait, and on an error hand it to
`dealWithError` before returning it. The answer is the final state or the awaited record. -/
def ensureBLBWait (bc : Baiducloud σ) (service : Service)
    (svcAnno : ServiceAnnotation) (lb : LoadBalancer) (w : World σ) :
    Final σ ⊕ (LoadBalancer × World σ) :=
  let r := waitForLoadBalancer bc lb w
  match r.1 with
  | (_, some err) =>
    Sum.inl ⟨Outcome.ret none (some err), dealWithError bc err service, svcAnno, r.2⟩
  | (none, none) => Sum.inl ⟨Outcome.panicked, service, svcAnno, r.2⟩
  | (some lb1, none) => Sum.inr (lb1, r.2)

/-- Lines 100-128 of `ensureBLB`: wait, reconcile the listeners, wait, reconcile the backend
servers, wait. -/
def ensureBLBPhases (bc : Baiducloud σ) (service : Service) (nodes : List Node)
    (svcAnno : ServiceAnnotation) (lb : LoadBalancer) (w : World σ) : Final σ :=
  match ensureBLBWait bc service svcAnno lb w with
  | Sum.inl fin => fin
  | Sum.inr (lb1, w1) =>
    let r2 := reconcileListeners bc service lb1 w1
    match r2.1 with
    | some e => ⟨Outcome.ret none (some (GoError.api e)), service, svcAnno, r2.2⟩
    | none =>
      match ensureBLBWait bc service svcAnno lb1 r2.2 with
      | Sum.inl fin => fin
      | Sum.inr (lb2, w3) =>
        let r4 := reconcileBackendServers bc service nodes lb2 w3
        match r4.1 with
        | some e => ⟨Outcome.ret none (some (GoError.api e)), service, svcAnno, r4.2⟩
        | none =>
          match ensureBLBWait bc service svcAnno lb2 r4.2 with
          | Sum.inl fin => fin
          | Sum.inr (lb3, w5) => ⟨Outcome.ret (some lb3) none, service, svcAnno, w5⟩

/-- Function `ensureBLB` (`load_balancer_blb.go:17-129`); `fuel` bounds the passes of the
subnet loop reached through `createBLB`. The context argument is not used by the source. -/
def ensureBLB (bc : Baiducloud σ) (fuel : Nat) (_clusterName : String) (service : Service)
    (nodes : List Node) (svcAnno : ServiceAnnotation) (w : World σ) : Final σ :=
  match ensureBLBResolve bc fuel service svcAnno w with
  | Sum.inl fin => fin
  | Sum.inr s =>
    match s.lb with
    | none => ⟨Outcome.panicked, s.service, s.svcAnno, s.w⟩
    | some lb => ensureBLBPhases bc s.service nodes s.svcAnno lb s.w

/-! ## The polls of a wait, as seen from outside -/

/-- The poll reported the resource present with status "available": it returned no error,
found the resource, and the record carries that status. -/
def GetResult.available (r : GetResult) : Prop :=
  r.err = none ∧ r.exist = true ∧ r.lb.Status = "available"

/-- The poll returned no error and did not report the resource present with status
"available". -/
def GetResult.quiet (r : GetResult) : Prop :=
  r.err = none ∧ ¬ r.available

/-- The poll returned no error and reported the resource absent. -/
def GetResult.absent (r : GetResult) : Prop :=
  r.err = none ∧ r.exist = false

instance (r : GetResult) : Decidable r.available :=
  inferInstanceAs (Decidable (r.err = none ∧ r.exist = true ∧ r.lb.Status = "available"))

instance (r : GetResult) : Decidable r.quiet :=
  inferInstanceAs (Decidable (r.err = none ∧ ¬ r.available))

instance (r : GetResult) : Decidable r.absent :=
  inferInstanceAs (Decidable (r.err = none ∧ r.exist = false))

/-- The cached record and the world after `k` polls that started from the pair `p`, none of
which ended the wait: each poll asks for the identifier of the cached record, a record
reported present replaces the cached one, an absent report keeps it. -/
def pollStates (bc : Baiducloud σ) (p : LoadBalancer × World σ) : Nat → LoadBalancer × World σ
  | 0 => p
  | k + 1 =>
    let q := pollStates bc p k
    let r := getBCELoadBalancerById bc q.1.BlbId q.2
    (if r.1.exist = true then r.1.lb else q.1, r.2)

/-- The answer to the poll made from the state reached after `k` polls. -/
def pollAnswer (bc : Baiducloud σ) (p : LoadBalancer × World σ) (k : Nat) : GetResult :=
  (getBCELoadBalancerById bc (pollStates bc p k).1.BlbId (pollStates bc p k).2).1

/-- The answer to poll number `k` (counted from 1) of `waitForLoadBalancer bc lb w`. -/
def waitPoll (bc : Baiducloud σ) (lb : LoadBalancer) (w : World σ) (k : Nat) : GetResult :=
  pollAnswer bc ({ lb with Status := "unknown" }, w) (k - 1)

/-- The world after `k` polls of `waitForLoadBalancer bc lb w`. -/
def waitWorld (bc : Baiducloud σ) (lb : LoadBalancer) (w : World σ) (k : Nat) : World σ :=
  (pollStates bc ({ lb with Status := "unknown" }, w) k).2

/-! ## The describe calls of `describeBLB`, as seen from outside -/

/-- The world after `k` describe calls with the same arguments. -/
def describeWorld (bc : Baiducloud σ) (args : DescribeLoadBalancersArgs) (w : World σ) :
    Nat → World σ
  | 0 => w
  | k + 1 => (DescribeLoadBalancers bc args (describeWorld bc args w k)).2

/-- The answer to describe call number `k`, where call 0 is the initial call of `describeBLB`
and calls 1 to 10 are its retries. -/
def describeAnswer (bc : Baiducloud σ) (args : DescribeLoadBalancersArgs) (w : World σ)
    (k : Nat) : Except ApiError (List LoadBalancer) :=
  (DescribeLoadBalancers bc args (describeWorld bc args w k)).1

/-- The describe call returned a list whose length is not 1. -/
def describeMiss (r : Except ApiError (List LoadBalancer)) : Prop :=
  ∃ lbs, r = Except.ok lbs ∧ lbs.length ≠ 1

/-- The describe call returned a list of exactly one record. -/
def describeOne (r : Except ApiError (List LoadBalancer)) : Prop :=
  ∃ lbs, r = Except.ok lbs ∧ lbs.length = 1

/-! ## Requests issued by a run -/

/-- The world `w1` was reached from `w` by issuing requests that all satisfy `P`. -/
def Extends (P : Call → Prop) (w w1 : World σ) : Prop :=
  ∃ l, w1.calls = w.calls ++ l ∧ ∀ c, c ∈ l → P c

/-- The request is a poll by identifier. -/
def Call.isPoll (c : Call) : Prop :=
  ∃ id, c = Call.getBCELoadBalancerById id

/-- The request is one of those issued from line 100 of `ensureBLB` on: a poll by identifier,
`reconcileListeners` or `reconcileBackendServers`. -/
def Call.isPhase (c : Call) : Prop :=
  c.isPoll ∨ (∃ lb, c = Call.reconcileListeners lb) ∨
    (∃ nodes lb, c = Call.reconcileBackendServers nodes lb)

/-- The request is a `CreateLoadBalancer` request. -/
def Call.isCreateLoadBalancer : Call → Bool
  | Call.CreateLoadBalancer _ => true
  | _ => false

/-! ## A concrete cloud, for the worked instances -/

/-- A cloud whose state counts the polls by identifier made so far. No load balancer is
known by name; one resolved by identifier is present and becomes "available" from the third
poll on; the first instance sits in a subnet of type "BCC"; every request succeeds. -/
def demoCloud : Baiducloud Nat where
  ClusterID := "c-1"
  ServiceAnnotationCceAutoAddLoadBalancerId :=
    "service.beta.kubernetes.io/cce-load-balancer-cce-add-id"
  ServiceAnnotationLoadBalancerExistId :=
    "service.beta.kubernetes.io/cce-load-balancer-exist-id"
  getServiceName := fun service => service.Namespace ++ "/" ++ service.Name
  getBCELoadBalancer := fun _ s => (⟨⟨"", "", "", ""⟩, false, none⟩, s)
  getBCELoadBalancerById := fun id s =>
    (⟨⟨id, "", if 2 ≤ s then "available" else "creating", ""⟩, true, none⟩, s + 1)
  getAllListeners := fun _ s => (Except.ok [], s)
  reconcileListeners := fun _ _ s => (none, s)
  reconcileBackendServers := fun _ _ _ s => (none, s)
  CreateLoadBalancer := fun args s => (Except.ok ⟨"lb-1", args.Name, "10.0.0.1"⟩, s)
  DescribeLoadBalancers := fun args s =>
    (Except.ok [⟨args.LoadBalancerId, "", "creating", ""⟩], s)
  ListInstances := fun _ s => (Except.ok [⟨"vpc-1", "sbn-1"⟩], s)
  DescribeSubnet := fun id s =>
    (Except.ok ⟨id, "default", "zoneA", "192.168.0.0/24", "vpc-1", "BCC"⟩, s)
  ListSubnet := fun _ s => (Except.ok [], s)
  CreateSubnet := fun _ s => (Except.ok "sbn-new", s)
  ParseCIDR := fun _ => Except.error ⟨"invalid CIDR address"⟩
  NextSubnet := fun cidr _ => (cidr, true)
  IPNetString := fun _ => ""

/-- The cloud of `demoCloud` in which no load balancer is ever found by identifier. -/
def goneCloud : Baiducloud Nat :=
  { demoCloud with
    getBCELoadBalancerById := fun _ s => (⟨⟨"", "", "", ""⟩, false, none⟩, s + 1) }

/-- A load balancer record to wait for. -/
def demoLb : LoadBalancer := ⟨"lb-1", "c-1/default/svc-a", "available", "10.0.0.1"⟩

/-- The service of the worked instances, without annotations. -/
def demoService : Service := ⟨"default", "svc-a", none⟩

/-- The initial world: cloud state 0, no request issued. -/
def demoWorld : World Nat := ⟨0, []⟩

/-- A subnet with the system-predefined reserved name. -/
def sysSubnet : Subnet := ⟨"sbn-sys", "系统预定义子网", "zoneA", "192.168.1.0/24", "vpc-1", "BCC"⟩

/-- A subnet named "CCE-Reserve". -/
def cceSubnet : Subnet := ⟨"sbn-cce", "CCE-Reserve", "zoneA", "192.168.2.0/24", "vpc-1", "BCC"⟩

/-- The cloud of `demoCloud` in which the first instance sits in a subnet of type "NAT" and
the VPC lists the system-predefined subnet followed by a "CCE-Reserve" subnet. -/
def reserveCloud : Baiducloud Nat :=
  { demoCloud with
    DescribeSubnet := fun id s =>
      (Except.ok ⟨id, "nat", "zoneA", "192.168.0.0/24", "vpc-1", "NAT"⟩, s)
    ListSubnet := fun _ s => (Except.ok [sysSubnet, cceSubnet], s) }

/-- The cloud of `demoCloud` in which the load balancer named by `LoadBalancerExistId` already
has a listener. -/
def usedCloud : Baiducloud Nat :=
  { demoCloud with getAllListeners := fun _ s => (Except.ok [⟨80⟩], s) }

/-- The cloud of `demoCloud` in which a load balancer is found by identifier on the first
poll only and is reported absent ever after. -/
def vanishCloud : Baiducloud Nat :=
  { demoCloud with
    getBCELoadBalancerById := fun id s =>
      (⟨⟨id, "", "creating", ""⟩, decide (s = 0), none⟩, s + 1) }

/-- A service whose annotation map declares the pre-existing load balancer "lb-7". -/
def existService : Service :=
  ⟨"default", "svc-a", some [(demoCloud.ServiceAnnotationLoadBalancerExistId, "lb-7")]⟩

/-- A service whose annotation map holds the auto-managed identifier "lb-9". -/
def boundService : Service :=
  ⟨"default", "svc-a", some [(demoCloud.ServiceAnnotationCceAutoAddLoadBalancerId, "lb-9")]⟩

/-! ## The requests of the subnet loop, as seen from outside -/

/-- The text `cidr` is the next block after the text `prev`: `prev` parses to a network, the
next-block computation on that network with its own mask length reports a block, and `cidr`
is that block printed. -/
def nextBlock (bc : Baiducloud σ) (prev cidr : String) : Prop :=
  ∃ c, bc.ParseCIDR prev = Except.ok c ∧ (bc.NextSubnet c c.ones).2 = false ∧
    cidr = bc.IPNetString (bc.NextSubnet c c.ones).1

/-- The four blocks of a small address space, printed. -/
def blockCidr : Nat → String
  | 0 => "10.0.0.0/24"
  | 1 => "10.0.1.0/24"
  | 2 => "10.0.2.0/24"
  | _ => "10.0.3.0/24"

/-- The cloud of `demoCloud` with an address space of four blocks, in which the first instance
sits in the subnet "10.0.0.0/24" of type "NAT", no subnet carries a reserved name, and
`CreateSubnet` fails twice before it succeeds. The cloud state counts the `CreateSubnet`
requests. -/
def synthCloud : Baiducloud Nat :=
  { demoCloud with
    DescribeSubnet := fun id s =>
      (Except.ok ⟨id, "nat", "zoneA", "10.0.0.0/24", "vpc-1", "NAT"⟩, s)
    ListSubnet := fun _ s => (Except.ok [], s)
    CreateSubnet := fun _ s =>
      (if 2 ≤ s then Except.ok "sbn-new" else Except.error ⟨"conflict"⟩, s + 1)
    ParseCIDR := fun text =>
      if text = "10.0.0.0/24" then Except.ok ⟨0, 24⟩
      else if text = "10.0.1.0/24" then Except.ok ⟨1, 24⟩
      else if text = "10.0.2.0/24" then Except.ok ⟨2, 24⟩
      else if text = "10.0.3.0/24" then Except.ok ⟨3, 24⟩
      else Except.error ⟨"invalid CIDR address: " ++ text⟩
    NextSubnet := fun cidr mask => (⟨cidr.ip + 1, mask⟩, decide (3 ≤ cidr.ip))
    IPNetString := fun cidr => blockCidr cidr.ip }

/-- The cloud of `synthCloud` in which every `CreateSubnet` request fails. -/
def fullCloud : Baiducloud Nat :=
  { synthCloud with CreateSubnet := fun _ s => (Except.error ⟨"conflict"⟩, s + 1) }

/-- The preferred subnet of `synthCloud` and `fullCloud`. -/
def natSubnet : Subnet := ⟨"sbn-1", "nat", "zoneA", "10.0.0.0/24", "vpc-1", "NAT"⟩

/-- The cloud of `demoCloud` in which the service name is so long that the cluster id, a
slash and the service name make 77 characters. -/
def longCloud : Baiducloud Nat :=
  { demoCloud with
    getServiceName := fun _ =>
      "default/a-very-long-service-name-that-goes-on-and-on-and-on-and-on-and-on" }

/-- The cloud of `demoCloud` in which the service name holds characters of three bytes each:
the cluster id, a slash and the service name make 35 characters and 75 bytes. -/
def wideCloud : Baiducloud Nat :=
  { demoCloud with
    getServiceName := fun _ => "default/abc网网网网网网网网网网网网网网网网网网网网" }

/-! ## A run of the creation path, as seen from outside -/

/-- The identifier asked for by poll number `j` (counted from 1) of
`waitForLoadBalancer bc lb w`: the one of the record cached at that moment. -/
def waitQueried (bc : Baiducloud σ) (lb : LoadBalancer) (w : World σ) (j : Nat) : String :=
  (pollStates bc ({ lb with Status := "unknown" }, w) (j - 1)).1.BlbId

/-- The polls of the wait for `lb` from world `w` succeed and poll `k` observes "available":
`1 ≤ k ≤ 10`, polls `1..k-1` return no error and do not report "available" yet, poll `k`
reports the resource present with status "available", and every poll up to `k` that finds a
record returns the record of the identifier it asked for. -/
def WaitObserves (bc : Baiducloud σ) (lb : LoadBalancer) (w : World σ) (k : Nat) : Prop :=
  1 ≤ k ∧ k ≤ 10 ∧ (∀ j, 1 ≤ j → j < k → (waitPoll bc lb w j).quiet) ∧
    (waitPoll bc lb w k).available ∧
    (∀ j, 1 ≤ j → j ≤ k → (waitPoll bc lb w j).exist = true →
      (waitPoll bc lb w j).lb.BlbId = waitQueried bc lb w j)

/-- A cloud in which a load balancer exists only once it has been created, and a read sees it
only after one more read. State 0: no load balancer. `CreateLoadBalancer` makes "lb-1" and
moves to state 1, where reads do not see it yet; the first describe request in state 1 still
returns nothing and moves to state 2. From state 2 on "lb-1" is described, found by name and
found by identifier; each poll by identifier that finds it moves one state on, and its status
is "available" from state 4 on. -/
def realCloud : Baiducloud Nat :=
  { demoCloud with
    getBCELoadBalancer := fun _ s =>
      (if s ≤ 1 then ⟨⟨"", "", "", ""⟩, false, none⟩
        else ⟨⟨"lb-1", "", "creating", ""⟩, true, none⟩, s)
    getBCELoadBalancerById := fun id s =>
      if s ≤ 1 ∨ id ≠ "lb-1" then (⟨⟨"", "", "", ""⟩, false, none⟩, s)
      else (⟨⟨"lb-1", "", if 4 ≤ s then "available" else "creating", ""⟩, true, none⟩, s + 1)
    CreateLoadBalancer := fun args _ => (Except.ok ⟨"lb-1", args.Name, "10.0.0.1"⟩, 1)
    DescribeLoadBalancers := fun args s =>
      if s = 0 then (Except.ok [], 0)
      else if s = 1 then (Except.ok [], 2)
      else if args.LoadBalancerId = "lb-1" then (Except.ok [⟨"lb-1", "", "creating", ""⟩], s)
      else (Except.ok [], s) }

/-- The cloud of `demoCloud` in which the cluster lists no instance. -/
def emptyCloud : Baiducloud Nat :=
  { demoCloud with ListInstances := fun _ s => (Except.ok [], s) }

/-- The cloud of `synthCloud` in which the first instance sits in the last block of the
address space, "10.0.3.0/24", and the VPC lists that subnet only. -/
def lastBlockCloud : Baiducloud Nat :=
  { synthCloud with
    DescribeSubnet := fun id s =>
      (Except.ok ⟨id, "nat", "zoneA", "10.0.3.0/24", "vpc-1", "NAT"⟩, s)
    ListSubnet := fun _ s =>
      (Except.ok [⟨"sbn-1", "nat", "zoneA", "10.0.3.0/24", "vpc-1", "NAT"⟩], s) }

/-- The world of the worked run in `realCloud` after the lookup by name. -/
def realW1 : World Nat :=
  (getBCELoadBalancer realCloud "c-1/default/svc-a" demoWorld).2

/-- The world of the worked run after the subnet resolution. -/
def realW2 : World Nat :=
  (getVpcInfoForBLB realCloud 0 realW1).2

/-- The world of the worked run after the create request. -/
def realW3 : World Nat :=
  (CreateLoadBalancer realCloud
    (createBLBArgs realCloud demoService ⟨"", "", ""⟩ "vpc-1" "sbn-1") realW2).2

/-- The world of the worked run after its two describe requests. -/
def realW4 : World Nat :=
  describeWorld realCloud ⟨"lb-1", true⟩ realW3 2

/-- The record of "lb-1" as described right after creation. -/
def realLb0 : LoadBalancer := ⟨"lb-1", "", "creating", ""⟩

/-- The record of "lb-1" once it is "available". -/
def realLb : LoadBalancer := ⟨"lb-1", "", "available", ""⟩

/-- The service of the worked run once the new identifier is written to its annotation map. -/
def realService1 : Service :=
  demoService.withAnnotation realCloud.ServiceAnnotationCceAutoAddLoadBalancerId "lb-1"

/-- The world of the worked run after `reconcileListeners`. -/
def realW6 : World Nat :=
  (reconcileListeners realCloud realService1 realLb (waitWorld realCloud realLb0 realW4 3)).2

/-- The world of the worked run after `reconcileBackendServers`. -/
def realW8 : World Nat :=
  (reconcileBackendServers realCloud realService1 [] realLb
    (waitWorld realCloud realLb realW6 1)).2

/-! ## Proofs: `waitForLoadBalancer` -/

/-- One pass of the loop, spelled out by the answer of its poll. -/
theorem waitForLoadBalancerLoop_succ (bc : Baiducloud σ) (n index : Nat) (lb : LoadBalancer)
    (w : World σ) (hi : index < 10) (hs : lb.Status ≠ "available") :
    waitForLoadBalancerLoop bc (n + 1) index lb w =
      match (pollAnswer bc (lb, w) 0).err with
      | some e => ((some (pollAnswer bc (lb, w) 0).lb, some (GoError.api e)),
          (pollStates bc (lb, w) 1).2)
      | none =>
        if (pollAnswer bc (lb, w) 0).available then
          ((some (pollAnswer bc (lb, w) 0).lb, none), (pollStates bc (lb, w) 1).2)
        else if index ≥ 9 then
          if (pollAnswer bc (lb, w) 0).exist = false then
            ((some (pollAnswer bc (lb, w) 0).lb, some GoError.errBlbNotExist),
              (pollStates bc (lb, w) 1).2)
          else
            ((none, some (GoError.errorf "waitForLoadBalancer failed after retry")),
              (pollStates bc (lb, w) 1).2)
        else
          waitForLoadBalancerLoop bc n (index + 1) (pollStates bc (lb, w) 1).1
            (pollStates bc (lb, w) 1).2 := by
  have hg : index < 10 ∧ lb.Status ≠ "available" := ⟨hi, hs⟩
  rw [waitForLoadBalancerLoop, if_pos hg]
  simp only [waitForLoadBalancerBody, pollAnswer, pollStates, GetResult.available]
  cases he : (getBCELoadBalancerById bc lb.BlbId w).1.err with
  | some e => simp
  | none =>
    cases hx : (getBCELoadBalancerById bc lb.BlbId w).1.exist with
    | false =>
      by_cases h9 : index ≥ 9
      · simp [h9]
      · simp [h9]
    | true =>
      by_cases ha : (getBCELoadBalancerById bc lb.BlbId w).1.lb.Status = "available"
      · cases n with
        | zero => simp [ha, waitForLoadBalancerLoop]
        | succ n => simp [ha, waitForLoadBalancerLoop]
      · by_cases h9 : index ≥ 9
        · simp [ha, h9]
        · simp [ha, h9]

/-- Ten passes are all the loop can make: from counter `index` on, any bound of at least
`10 - index` passes gives the same result. -/
theorem waitForLoadBalancerLoop_fuel (bc : Baiducloud σ) :
    ∀ (n index : Nat) (lb : LoadBalancer) (w : World σ), 10 ≤ index + n →
      waitForLoadBalancerLoop bc (n + 1) index lb w = waitForLoadBalancerLoop bc n index lb w := by
  intro n
  induction n with
  | zero =>
    intro index lb w h
    have hi : ¬ (index < 10 ∧ lb.Status ≠ "available") := fun hc => by omega
    simp only [waitForLoadBalancerLoop, hi, if_false]
  | succ n ih =>
    intro index lb w h
    rw [waitForLoadBalancerLoop, waitForLoadBalancerLoop]
    split
    · split
      · rfl
      · exact ih _ _ _ (by omega)
    · rfl

theorem pollStates_calls (bc : Baiducloud σ) (p : LoadBalancer × World σ) (k : Nat) :
    (pollStates bc p k).2.calls =
      p.2.calls ++ (List.range k).map
        (fun j => Call.getBCELoadBalancerById (pollStates bc p j).1.BlbId) := by
  induction k with
  | zero => simp [pollStates]
  | succ k ih =>
    simp only [pollStates, getBCELoadBalancerById, ih, List.range_succ, List.map_append,
      List.map_cons, List.map_nil, List.append_assoc]

/-- After `k` quiet polls made at counters below 9 the loop stands at the state reached by
those polls, and the cached record is still not "available". -/
theorem waitForLoadBalancerLoop_skip (bc : Baiducloud σ) (lb : LoadBalancer) (w : World σ) :
    ∀ (k n index : Nat), index + k < 10 → lb.Status ≠ "available" →
      (∀ j, j < k → (pollAnswer bc (lb, w) j).quiet) →
      waitForLoadBalancerLoop bc (n + k) index lb w =
        waitForLoadBalancerLoop bc n (index + k) (pollStates bc (lb, w) k).1
          (pollStates bc (lb, w) k).2 ∧
      (pollStates bc (lb, w) k).1.Status ≠ "available" := by
  intro k
  induction k with
  | zero => intro n index _ hs _; exact ⟨rfl, hs⟩
  | succ k ih =>
    intro n index hi hs hq
    have hk := ih (n + 1) index (by omega) hs (fun j hj => hq j (by omega))
    have hqk := hq k (by omega)
    have hstep := waitForLoadBalancerLoop_succ bc n (index + k) (pollStates bc (lb, w) k).1
      (pollStates bc (lb, w) k).2 (by omega) hk.2
    have hans : pollAnswer bc ((pollStates bc (lb, w) k).1, (pollStates bc (lb, w) k).2) 0 =
        pollAnswer bc (lb, w) k := rfl
    have hst : pollStates bc ((pollStates bc (lb, w) k).1, (pollStates bc (lb, w) k).2) 1 =
        pollStates bc (lb, w) (k + 1) := rfl
    rw [hans, hst] at hstep
    have h9 : ¬ (index + k ≥ 9) := by omega
    rw [hqk.1] at hstep
    simp only [hqk.2, h9, if_false] at hstep
    refine ⟨?_, ?_⟩
    · have e1 : n + (k + 1) = n + 1 + k := by omega
      have e2 : index + (k + 1) = index + k + 1 := by omega
      rw [e1, e2, hk.1, hstep]
    · show (if (pollAnswer bc (lb, w) k).exist = true then (pollAnswer bc (lb, w) k).lb
          else (pollStates bc (lb, w) k).1).Status ≠ "available"
      by_cases hx : (pollAnswer bc (lb, w) k).exist = true
      · rw [if_pos hx]
        intro ha
        exact hqk.2 ⟨hqk.1, hx, ha⟩
      · rw [if_neg hx]
        exact hk.2

/-- The result of `waitForLoadBalancer` read off poll `k + 1`, when the `k` polls before it
were quiet. -/
theorem waitForLoadBalancer_at (bc : Baiducloud σ) (lb : LoadBalancer) (w : World σ) (k : Nat)
    (hk : k < 10)
    (hq : ∀ j, j < k → (pollAnswer bc ({ lb with Status := "unknown" }, w) j).quiet) :
    waitForLoadBalancer bc lb w =
      match (pollAnswer bc ({ lb with Status := "unknown" }, w) k).err with
      | some e => ((some (pollAnswer bc ({ lb with Status := "unknown" }, w) k).lb,
          some (GoError.api e)), (pollStates bc ({ lb with Status := "unknown" }, w) (k + 1)).2)
      | none =>
        if (pollAnswer bc ({ lb with Status := "unknown" }, w) k).available then
          ((some (pollAnswer bc ({ lb with Status := "unknown" }, w) k).lb, none),
            (pollStates bc ({ lb with Status := "unknown" }, w) (k + 1)).2)
        else if k ≥ 9 then
          if (pollAnswer bc ({ lb with Status := "unknown" }, w) k).exist = false then
            ((some (pollAnswer bc ({ lb with Status := "unknown" }, w) k).lb,
              some GoError.errBlbNotExist),
              (pollStates bc ({ lb with Status := "unknown" }, w) (k + 1)).2)
          else
            ((none, some (GoError.errorf "waitForLoadBalancer failed after retry")),
              (pollStates bc ({ lb with Status := "unknown" }, w) (k + 1)).2)
        else
          waitForLoadBalancerLoop bc (9 - k) (k + 1)
            (pollStates bc ({ lb with Status := "unknown" }, w) (k + 1)).1
            (pollStates bc ({ lb with Status := "unknown" }, w) (k + 1)).2 := by
  have h0 : ({ lb with Status := "unknown" } : LoadBalancer).Status ≠ "available" := by
    simp
  have hs := waitForLoadBalancerLoop_skip bc { lb with Status := "unknown" } w k (9 - k + 1) 0
    (by omega) h0 hq
  have e1 : 9 - k + 1 + k = 10 := by omega
  rw [e1] at hs
  have hstep := waitForLoadBalancerLoop_succ bc (9 - k) (0 + k)
    (pollStates bc ({ lb with Status := "unknown" }, w) k).1
    (pollStates bc ({ lb with Status := "unknown" }, w) k).2 (by omega) hs.2
  have hans : pollAnswer bc ((pollStates bc ({ lb with Status := "unknown" }, w) k).1,
      (pollStates bc ({ lb with Status := "unknown" }, w) k).2) 0 =
        pollAnswer bc ({ lb with Status := "unknown" }, w) k := rfl
  have hst : pollStates bc ((pollStates bc ({ lb with Status := "unknown" }, w) k).1,
      (pollStates bc ({ lb with Status := "unknown" }, w) k).2) 1 =
        pollStates bc ({ lb with Status := "unknown" }, w) (k + 1) := rfl
  rw [hans, hst] at hstep
  unfold waitForLoadBalancer
  rw [hs.1, hstep]
  simp only [Nat.zero_add]

/-- Either some poll among the first ten is the first one that is not quiet, or all ten are
quiet. -/
theorem pollAnswer_cases (bc : Baiducloud σ) (p : LoadBalancer × World σ) :
    (∃ k, k < 10 ∧ (∀ j, j < k → (pollAnswer bc p j).quiet) ∧ ¬ (pollAnswer bc p k).quiet) ∨
    (∀ j, j < 10 → (pollAnswer bc p j).quiet) := by
  by_cases h : ∃ k, k < 10 ∧ ¬ (pollAnswer bc p k).quiet
  · left
    refine ⟨Nat.find h, (Nat.find_spec h).1, ?_, (Nat.find_spec h).2⟩
    intro j hj
    by_contra hq
    exact Nat.find_min h hj ⟨by have := (Nat.find_spec h).1; omega, hq⟩
  · right
    intro j hj
    by_contra hq
    exact h ⟨j, hj, hq⟩

/-- The wait succeeds at the first poll that reports "available": the record of that poll is
returned, in the world reached after it. -/
theorem waitForLoadBalancer_of_available (bc : Baiducloud σ) (lb : LoadBalancer) (w : World σ)
    (k : Nat) (h1 : 1 ≤ k) (h10 : k ≤ 10)
    (hq : ∀ j, 1 ≤ j → j < k → (waitPoll bc lb w j).quiet)
    (ha : (waitPoll bc lb w k).available) :
    waitForLoadBalancer bc lb w = ((some (waitPoll bc lb w k).lb, none), waitWorld bc lb w k) := by
  have hq2 : ∀ j, j < k - 1 →
      (pollAnswer bc ({ lb with Status := "unknown" }, w) j).quiet := by
    intro j hj
    have := hq (j + 1) (by omega) (by omega)
    simpa [waitPoll] using this
  have hat := waitForLoadBalancer_at bc lb w (k - 1) (by omega) hq2
  have ha2 : (pollAnswer bc ({ lb with Status := "unknown" }, w) (k - 1)).available := ha
  rw [ha2.1] at hat
  simp only [ha2, if_true] at hat
  have e : k - 1 + 1 = k := by omega
  rw [e] at hat
  exact hat

/-- C1: `waitForLoadBalancer` returns without error exactly when some poll `k` with
`1 ≤ k ≤ 10` reported the resource present with status "available" after polls `1..k-1` that
each returned no error and did not report that; then the returned record is the one of poll
`k`, the world is the one after `k` polls, and exactly `k` requests were issued, all of them
polls. The input record is arbitrary: its status is overwritten before the first poll. -/
theorem waitForLoadBalancer_succeeds_iff (bc : Baiducloud σ) (lb : LoadBalancer) (w : World σ) :
    ((waitForLoadBalancer bc lb w).1.2 = none ↔
      ∃ k, 1 ≤ k ∧ k ≤ 10 ∧ (∀ j, 1 ≤ j → j < k → (waitPoll bc lb w j).quiet) ∧
        (waitPoll bc lb w k).available) ∧
    (∀ k, 1 ≤ k → k ≤ 10 → (∀ j, 1 ≤ j → j < k → (waitPoll bc lb w j).quiet) →
      (waitPoll bc lb w k).available →
      (waitForLoadBalancer bc lb w).1 = (some (waitPoll bc lb w k).lb, none) ∧
      (waitForLoadBalancer bc lb w).2 = waitWorld bc lb w k ∧
      (waitForLoadBalancer bc lb w).2.calls = w.calls ++ (List.range k).map (fun j =>
        Call.getBCELoadBalancerById
          (pollStates bc ({ lb with Status := "unknown" }, w) j).1.BlbId)) := by
  have key := waitForLoadBalancer_of_available bc lb w
  refine ⟨⟨?_, ?_⟩, ?_⟩
  · intro hnone
    rcases pollAnswer_cases bc ({ lb with Status := "unknown" }, w) with ⟨k, hk, hq, hnq⟩ | hall
    · have hat := waitForLoadBalancer_at bc lb w k hk hq
      cases he : (pollAnswer bc ({ lb with Status := "unknown" }, w) k).err with
      | some e =>
        rw [he] at hat
        rw [hat] at hnone
        simp at hnone
      | none =>
        have hav : (pollAnswer bc ({ lb with Status := "unknown" }, w) k).available := by
          by_contra hna
          exact hnq ⟨he, hna⟩
        refine ⟨k + 1, by omega, by omega, ?_, ?_⟩
        · intro j hj1 hjk
          have := hq (j - 1) (by omega)
          simpa [waitPoll] using this
        · simpa [waitPoll] using hav
    · have hat := waitForLoadBalancer_at bc lb w 9 (by omega) (fun j hj => hall j (by omega))
      have h9 := hall 9 (by omega)
      rw [h9.1] at hat
      simp only [h9.2, if_false] at hat
      rw [hat] at hnone
      by_cases hx : (pollAnswer bc ({ lb with Status := "unknown" }, w) 9).exist = false
      · simp [hx] at hnone
      · simp [hx] at hnone
  · rintro ⟨k, h1, h10, hq, ha⟩
    rw [key k h1 h10 hq ha]
  · intro k h1 h10 hq ha
    have hk := key k h1 h10 hq ha
    refine ⟨by rw [hk], by rw [hk], ?_⟩
    rw [hk]
    exact pollStates_calls bc ({ lb with Status := "unknown" }, w) k

/-- C2: `waitForLoadBalancer` returns `errBlbNotExist` exactly when polls 1..9 each returned no
error and did not report the resource present with status "available" and poll 10 reported it
absent. At a counter below 9 an absent report makes the loop go on with the cached record it
had. A tenth poll that finds the resource present with another status makes the call fail with
an error that is not `errBlbNotExist`. -/
theorem waitForLoadBalancer_errBlbNotExist_iff (bc : Baiducloud σ) (lb : LoadBalancer)
    (w : World σ) :
    ((waitForLoadBalancer bc lb w).1.2 = some GoError.errBlbNotExist ↔
      (∀ j, 1 ≤ j → j ≤ 9 → (waitPoll bc lb w j).quiet) ∧ (waitPoll bc lb w 10).absent) ∧
    (∀ (index : Nat) (cached : LoadBalancer) (w1 : World σ), index < 9 →
      (getBCELoadBalancerById bc cached.BlbId w1).1.absent →
      waitForLoadBalancerBody bc index cached w1 =
        (Sum.inr cached, (getBCELoadBalancerById bc cached.BlbId w1).2)) ∧
    ((∀ j, 1 ≤ j → j ≤ 9 → (waitPoll bc lb w j).quiet) →
      (waitPoll bc lb w 10).err = none → (waitPoll bc lb w 10).exist = true →
      (waitPoll bc lb w 10).lb.Status ≠ "available" →
      (waitForLoadBalancer bc lb w).1 =
        (none, some (GoError.errorf "waitForLoadBalancer failed after retry")) ∧
      (waitForLoadBalancer bc lb w).1.2 ≠ some GoError.errBlbNotExist) := by
  have pre : (∀ j, 1 ≤ j → j ≤ 9 → (waitPoll bc lb w j).quiet) →
      ∀ j, j < 9 → (pollAnswer bc ({ lb with Status := "unknown" }, w) j).quiet := by
    intro hq j hj
    have := hq (j + 1) (by omega) (by omega)
    simpa [waitPoll] using this
  refine ⟨⟨?_, ?_⟩, ?_, ?_⟩
  · intro hret
    rcases pollAnswer_cases bc ({ lb with Status := "unknown" }, w) with ⟨k, hk, hq, hnq⟩ | hall
    · have hat := waitForLoadBalancer_at bc lb w k hk hq
      cases he : (pollAnswer bc ({ lb with Status := "unknown" }, w) k).err with
      | some e =>
        rw [he] at hat
        rw [hat] at hret
        simp at hret
      | none =>
        have hav : (pollAnswer bc ({ lb with Status := "unknown" }, w) k).available := by
          by_contra hna
          exact hnq ⟨he, hna⟩
        rw [he] at hat
        simp only [hav, if_true] at hat
        rw [hat] at hret
        simp at hret
    · have hat := waitForLoadBalancer_at bc lb w 9 (by omega) (fun j hj => hall j (by omega))
      have h9 := hall 9 (by omega)
      rw [h9.1] at hat
      simp only [h9.2, if_false] at hat
      rw [hat] at hret
      refine ⟨?_, ?_⟩
      · intro j hj1 hj9
        have := hall (j - 1) (by omega)
        simpa [waitPoll] using this
      · by_cases hx : (pollAnswer bc ({ lb with Status := "unknown" }, w) 9).exist = false
        · exact ⟨h9.1, hx⟩
        · simp [hx] at hret
  · rintro ⟨hq, habs⟩
    have hat := waitForLoadBalancer_at bc lb w 9 (by omega) (pre hq)
    have habs2 : (pollAnswer bc ({ lb with Status := "unknown" }, w) 9).absent := habs
    have hna : ¬ (pollAnswer bc ({ lb with Status := "unknown" }, w) 9).available := by
      intro ha
      have := ha.2.1
      rw [habs2.2] at this
      exact Bool.noConfusion this
    rw [habs2.1] at hat
    simp only [hna, if_false, habs2.2] at hat
    rw [hat]
    simp
  · intro index cached w1 hi habs
    have h9 : ¬ (index ≥ 9) := by omega
    simp only [waitForLoadBalancerBody, habs.1, habs.2, h9, if_true, if_false]
  · intro hq herr hex hst
    have hat := waitForLoadBalancer_at bc lb w 9 (by omega) (pre hq)
    have herr2 : (pollAnswer bc ({ lb with Status := "unknown" }, w) 9).err = none := herr
    have hex2 : (pollAnswer bc ({ lb with Status := "unknown" }, w) 9).exist = true := hex
    have hna : ¬ (pollAnswer bc ({ lb with Status := "unknown" }, w) 9).available := by
      intro ha
      exact hst ha.2.2
    rw [herr2] at hat
    simp only [hna, if_false, hex2] at hat
    rw [hat]
    simp

/-- Worked instance of C1: against `demoCloud` the third poll is the first to report
"available", so the wait succeeds with the record of poll 3 after exactly three polls. -/
theorem waitForLoadBalancer_succeeds_iff_witness :
    (waitForLoadBalancer demoCloud demoLb demoWorld).1 =
        (some (waitPoll demoCloud demoLb demoWorld 3).lb, none) ∧
      (waitForLoadBalancer demoCloud demoLb demoWorld).2 = waitWorld demoCloud demoLb demoWorld 3 ∧
      (waitForLoadBalancer demoCloud demoLb demoWorld).2.calls = demoWorld.calls ++
        (List.range 3).map (fun j => Call.getBCELoadBalancerById
          (pollStates demoCloud ({ demoLb with Status := "unknown" }, demoWorld) j).1.BlbId) :=
  (waitForLoadBalancer_succeeds_iff demoCloud demoLb demoWorld).2 3 (by decide) (by decide)
    (by intro j h1 h3; interval_cases j <;> decide) (by decide)

/-- Worked instance of C2: against `goneCloud` nine quiet polls and an absent tenth give
`errBlbNotExist`. -/
theorem waitForLoadBalancer_errBlbNotExist_iff_witness :
    (waitForLoadBalancer goneCloud demoLb demoWorld).1.2 = some GoError.errBlbNotExist :=
  (waitForLoadBalancer_errBlbNotExist_iff goneCloud demoLb demoWorld).1.mpr
    ⟨by intro j h1 h9; interval_cases j <;> decide, by decide⟩

/-! ## Proofs: the annotation map and `dealWithError` -/

theorem GoMap.get_delete_self (m : GoMap) (k : String) : (m.delete k).get k = none := by
  induction m with
  | nil => rfl
  | cons p rest ih =>
    obtain ⟨k1, v⟩ := p
    by_cases h : k1 = k
    · simp only [GoMap.delete, h, if_true, ih]
    · simp only [GoMap.delete, h, if_false, GoMap.get, ih]

theorem GoMap.get_delete_ne (m : GoMap) (k k2 : String) (hne : k2 ≠ k) :
    (m.delete k).get k2 = m.get k2 := by
  induction m with
  | nil => rfl
  | cons p rest ih =>
    obtain ⟨k1, v⟩ := p
    by_cases h : k1 = k
    · have h2 : ¬ k1 = k2 := fun e => hne (e ▸ h)
      simp only [GoMap.delete, h, if_true, GoMap.get, ih]
      rw [if_neg (by rw [← h]; exact h2)]
    · by_cases h2 : k1 = k2
      · subst h2
        simp only [GoMap.delete, h, if_false, GoMap.get, if_true]
      · simp only [GoMap.delete, h, if_false, GoMap.get, h2, ih]

theorem GoMap.get_set_self (m : GoMap) (k v : String) : (m.set k v).get k = some v := by
  simp [GoMap.set, GoMap.get]

theorem GoMap.get_set_ne (m : GoMap) (k v k2 : String) (hne : k2 ≠ k) :
    (m.set k v).get k2 = m.get k2 := by
  have h : ¬ k = k2 := fun e => hne e.symm
  simp only [GoMap.set, GoMap.get, h, if_false]
  exact GoMap.get_delete_ne m k k2 hne

/-- C3: on `errBlbNotExist`, `dealWithError` deletes the auto-managed identifier key from the
annotation map, so the key is no longer held; on every other error the service is returned as
it was. In both cases every other key keeps its value, a nil map stays nil, and nothing else
of the service changes. -/
theorem dealWithError_frame (bc : Baiducloud σ) (err : GoError) (service : Service) :
    (err = GoError.errBlbNotExist →
      (∀ m, service.Annotations = some m →
        (dealWithError bc err service).Annotations =
          some (m.delete bc.ServiceAnnotationCceAutoAddLoadBalancerId)) ∧
      (dealWithError bc err service).lookup bc.ServiceAnnotationCceAutoAddLoadBalancerId
        = none) ∧
    (err ≠ GoError.errBlbNotExist → dealWithError bc err service = service) ∧
    (∀ k, k ≠ bc.ServiceAnnotationCceAutoAddLoadBalancerId →
      (dealWithError bc err service).lookup k = service.lookup k) ∧
    (service.Annotations = none → (dealWithError bc err service).Annotations = none) ∧
    (dealWithError bc err service).Namespace = service.Namespace ∧
    (dealWithError bc err service).Name = service.Name := by
  refine ⟨?_, ?_, ?_, ?_, ?_, ?_⟩
  · intro he
    subst he
    refine ⟨?_, ?_⟩
    · intro m hm
      simp [dealWithError, hm]
    · cases h : service.Annotations <;>
        simp [dealWithError, Service.lookup, h, GoMap.get_delete_self]
  · intro hne
    cases err <;> simp_all [dealWithError]
  · intro k hk
    cases err <;> cases h : service.Annotations <;>
      simp [dealWithError, Service.lookup, h, GoMap.get_delete_ne _ _ _ hk]
  · intro h
    cases err <;> simp [dealWithError, h]
  · cases err <;> cases h : service.Annotations <;> simp [dealWithError, h]
  · cases err <;> cases h : service.Annotations <;> simp [dealWithError, h]

/-- Worked instance of C3: the auto-managed key goes, the other key stays. -/
theorem dealWithError_frame_witness :
    (dealWithError demoCloud GoError.errBlbNotExist
        ⟨"default", "svc-a", some [(demoCloud.ServiceAnnotationCceAutoAddLoadBalancerId, "lb-1"),
          ("other", "v")]⟩).Annotations = some [("other", "v")] ∧
      (dealWithError demoCloud (GoError.errorf "x")
        ⟨"default", "svc-a", some [(demoCloud.ServiceAnnotationCceAutoAddLoadBalancerId, "lb-1"),
          ("other", "v")]⟩) =
        ⟨"default", "svc-a", some [(demoCloud.ServiceAnnotationCceAutoAddLoadBalancerId, "lb-1"),
          ("other", "v")]⟩ :=
  ⟨((dealWithError_frame demoCloud GoError.errBlbNotExist
      ⟨"default", "svc-a", some [(demoCloud.ServiceAnnotationCceAutoAddLoadBalancerId, "lb-1"),
        ("other", "v")]⟩).1 rfl).1 _ rfl,
    (dealWithError_frame demoCloud (GoError.errorf "x")
      ⟨"default", "svc-a", some [(demoCloud.ServiceAnnotationCceAutoAddLoadBalancerId, "lb-1"),
        ("other", "v")]⟩).2.1 (by decide)⟩

/-! ## Proofs: `createBLB` and `describeBLB` -/

theorem goBytes_ascii (l : List Char) (h : ∀ c, c ∈ l → c.val ≤ 0x7f) :
    l.flatMap String.utf8EncodeChar = l.map (fun c => c.val.toUInt8) := by
  induction l with
  | nil => rfl
  | cons c rest ih =>
    have hc : c.val ≤ 0x7f := h c (List.mem_cons_self c rest)
    have hrest := ih (fun d hd => h d (List.mem_cons_of_mem c hd))
    simp only [List.flatMap_cons, List.map_cons, hrest, String.utf8EncodeChar, hc, if_true]
    rfl

/-- For a string of one-byte characters, the bytes are as many as the characters, and the
first `n` bytes are the bytes of the first `n` characters. -/
theorem goBytes_take_ascii (s : String) (n : Nat) (h : ∀ c, c ∈ s.data → c.val ≤ 0x7f) :
    (goBytes s).length = s.length ∧ (goBytes s).take n = goBytes (s.take n) := by
  have htake : ∀ c, c ∈ s.data.take n → c.val ≤ 0x7f :=
    fun c hc => h c (List.mem_of_mem_take hc)
  constructor
  · unfold goBytes
    rw [goBytes_ascii s.data h, List.length_map]
    rfl
  · unfold goBytes
    rw [String.take_eq, goBytes_ascii s.data h]
    show _ = (s.data.take n).flatMap String.utf8EncodeChar
    rw [goBytes_ascii (s.data.take n) htake, List.map_take]

/-- Against the claim C8 as worded: in `wideCloud` the cluster id, a slash and the service
name make a string of 35 characters, well under 65, yet the name submitted is not that string:
it is its first 65 bytes, which end in the middle of the 32nd character. -/
theorem createBLB_name_counterexample :
    (wideCloud.ClusterID ++ "/" ++ wideCloud.getServiceName demoService).length = 35 ∧
    (goBytes (wideCloud.ClusterID ++ "/" ++ wideCloud.getServiceName demoService)).length = 75 ∧
    (createBLBArgs wideCloud demoService ⟨"", "", ""⟩ "vpc-1" "sbn-1").Name ≠
      goBytes (wideCloud.ClusterID ++ "/" ++ wideCloud.getServiceName demoService) ∧
    (createBLBArgs wideCloud demoService ⟨"", "", ""⟩ "vpc-1" "sbn-1").Name =
      goBytes "c-1/default/abc网网网网网网网网网网网网网网网网" ++ [0xe7, 0xbd] := by
  refine ⟨by decide, by decide, by decide, by decide⟩

/-- C8, amended: the `Name` of the request `createBLB` submits is
`ClusterID + "/" + getServiceName` when that string has at most 65 bytes, and its first 65
bytes otherwise; it never exceeds 65 bytes and is an initial segment of that string.
When the string is made of one-byte characters only, its length is its number of characters
and the cut name is made of its first 65 characters. The request recorded by `createBLB`,
once the subnet is resolved, is the one built here. -/
theorem createBLB_name (bc : Baiducloud σ) (service : Service) (svcAnno : ServiceAnnotation)
    (vpcID subnetID : String) :
    ((goBytes (bc.ClusterID ++ "/" ++ bc.getServiceName service)).length ≤ 65 →
      (createBLBArgs bc service svcAnno vpcID subnetID).Name =
        goBytes (bc.ClusterID ++ "/" ++ bc.getServiceName service)) ∧
    (65 < (goBytes (bc.ClusterID ++ "/" ++ bc.getServiceName service)).length →
      (createBLBArgs bc service svcAnno vpcID subnetID).Name =
        (goBytes (bc.ClusterID ++ "/" ++ bc.getServiceName service)).take 65 ∧
      (createBLBArgs bc service svcAnno vpcID subnetID).Name.length = 65) ∧
    (createBLBArgs bc service svcAnno vpcID subnetID).Name.length ≤ 65 ∧
    (∃ t, goBytes (bc.ClusterID ++ "/" ++ bc.getServiceName service) =
      (createBLBArgs bc service svcAnno vpcID subnetID).Name ++ t) ∧
    ((∀ c, c ∈ (bc.ClusterID ++ "/" ++ bc.getServiceName service).data → c.val ≤ 0x7f) →
      (goBytes (bc.ClusterID ++ "/" ++ bc.getServiceName service)).length =
        (bc.ClusterID ++ "/" ++ bc.getServiceName service).length ∧
      (65 < (bc.ClusterID ++ "/" ++ bc.getServiceName service).length →
        (createBLBArgs bc service svcAnno vpcID subnetID).Name =
          goBytes ((bc.ClusterID ++ "/" ++ bc.getServiceName service).take 65))) ∧
    (∀ (fuel : Nat) (w w1 : World σ),
      getVpcInfoForBLB bc fuel w = (some ((vpcID, subnetID), none), w1) →
      (createBLB bc fuel service svcAnno w).2.calls =
        w1.calls ++ [Call.CreateLoadBalancer (createBLBArgs bc service svcAnno vpcID subnetID)])
    := by
  have hcut : 65 < (goBytes (bc.ClusterID ++ "/" ++ bc.getServiceName service)).length →
      (createBLBArgs bc service svcAnno vpcID subnetID).Name =
        (goBytes (bc.ClusterID ++ "/" ++ bc.getServiceName service)).take 65 := by
    intro h
    have h2 : (goBytes (bc.ClusterID ++ "/" ++ bc.getServiceName service)).length > 65 := h
    simp only [createBLBArgs, h2, if_true]
  refine ⟨?_, ?_, ?_, ?_, ?_, ?_⟩
  · intro h
    have h2 : ¬ (goBytes (bc.ClusterID ++ "/" ++ bc.getServiceName service)).length > 65 := by
      omega
    simp only [createBLBArgs, h2, if_false]
  · intro h
    refine ⟨hcut h, ?_⟩
    rw [hcut h, List.length_take]
    omega
  · by_cases h : (goBytes (bc.ClusterID ++ "/" ++ bc.getServiceName service)).length > 65
    · rw [hcut h, List.length_take]
      omega
    · simp only [createBLBArgs, h, if_false]
      omega
  · by_cases h : (goBytes (bc.ClusterID ++ "/" ++ bc.getServiceName service)).length > 65
    · rw [hcut h]
      exact ⟨_, (List.take_append_drop 65 _).symm⟩
    · simp only [createBLBArgs, h, if_false]
      exact ⟨[], by simp⟩
  · intro hascii
    have hb := goBytes_take_ascii (bc.ClusterID ++ "/" ++ bc.getServiceName service) 65 hascii
    refine ⟨hb.1, ?_⟩
    intro h
    rw [hcut (by rw [hb.1]; exact h), hb.2]
  · intro fuel w w1 hv
    simp only [createBLB, hv, CreateLoadBalancer]
    cases (bc.CreateLoadBalancer (createBLBArgs bc service svcAnno vpcID subnetID) w1.st).1 <;>
      rfl

/-- Worked instances of amended C8. For cluster "c-1" and service "default/svc-a" the name is
the whole string. In `longCloud` the string has 77 one-byte characters and the name is made of its
first 65. In `wideCloud` the string has 35 characters and 75 bytes, and the name is its first
65 bytes: 31 characters and the first two of the three bytes of the next one. -/
theorem createBLB_name_witness :
    (createBLBArgs demoCloud demoService ⟨"", "", ""⟩ "vpc-1" "sbn-1").Name =
        goBytes "c-1/default/svc-a" ∧
      (createBLBArgs longCloud demoService ⟨"", "", ""⟩ "vpc-1" "sbn-1").Name =
        goBytes "c-1/default/a-very-long-service-name-that-goes-on-and-on-and-on-a" ∧
      (createBLBArgs wideCloud demoService ⟨"", "", ""⟩ "vpc-1" "sbn-1").Name =
        goBytes "c-1/default/abc网网网网网网网网网网网网网网网网" ++ [0xe7, 0xbd] ∧
      (createBLBArgs wideCloud demoService ⟨"", "", ""⟩ "vpc-1" "sbn-1").Name.length = 65 ∧
      (createBLB demoCloud 0 demoService ⟨"", "", ""⟩ demoWorld).2.calls =
        (getVpcInfoForBLB demoCloud 0 demoWorld).2.calls ++
          [Call.CreateLoadBalancer
            (createBLBArgs demoCloud demoService ⟨"", "", ""⟩ "vpc-1" "sbn-1")] :=
  ⟨(createBLB_name demoCloud demoService ⟨"", "", ""⟩ "vpc-1" "sbn-1").1 (by decide),
    ((createBLB_name longCloud demoService ⟨"", "", ""⟩ "vpc-1" "sbn-1").2.1
      (by decide)).1.trans (by decide),
    ((createBLB_name wideCloud demoService ⟨"", "", ""⟩ "vpc-1" "sbn-1").2.1
      (by decide)).1.trans (by decide),
    ((createBLB_name wideCloud demoService ⟨"", "", ""⟩ "vpc-1" "sbn-1").2.1 (by decide)).2,
    (createBLB_name demoCloud demoService ⟨"", "", ""⟩ "vpc-1" "sbn-1").2.2.2.2.2 0 demoWorld
      (getVpcInfoForBLB demoCloud 0 demoWorld).2 (by rfl)⟩

theorem describeBLB_eq_loop (bc : Baiducloud σ) (id : String) (service : Service) (w : World σ) :
    describeBLB bc id service w = describeBLBLoop bc ⟨id, true⟩ 11 w := by
  simp only [describeBLB, describeBLBLoop]
  cases (DescribeLoadBalancers bc ⟨id, true⟩ w).1 with
  | error e => rfl
  | ok lbs =>
    by_cases h : lbs.length = 1
    · simp [h]
    · simp [h]

/-- One pass of the retry loop, spelled out by the answer of its describe call. -/
theorem describeBLBLoop_succ (bc : Baiducloud σ) (args : DescribeLoadBalancersArgs)
    (left : Nat) (w : World σ) :
    describeBLBLoop bc args (left + 1) w =
      match describeAnswer bc args w 0 with
      | Except.error e => (([], some (GoError.api e)), describeWorld bc args w 1)
      | Except.ok lbs =>
        if lbs.length = 1 then ((lbs, none), describeWorld bc args w 1)
        else describeBLBLoop bc args left (describeWorld bc args w 1) := by
  simp only [describeBLBLoop, describeAnswer, describeWorld]

theorem describeWorld_calls (bc : Baiducloud σ) (args : DescribeLoadBalancersArgs) (w : World σ)
    (k : Nat) :
    (describeWorld bc args w k).calls =
      w.calls ++ List.replicate k (Call.DescribeLoadBalancers args) := by
  induction k with
  | zero => simp [describeWorld]
  | succ k ih =>
    simp only [describeWorld, DescribeLoadBalancers, ih, List.append_assoc,
      List.replicate_succ']

/-- After `k` describe calls that each returned a list of length other than 1 the loop stands
at the world reached by those calls, with `k` retries fewer. -/
theorem describeBLBLoop_skip (bc : Baiducloud σ) (args : DescribeLoadBalancersArgs)
    (w : World σ) :
    ∀ (k left : Nat), (∀ j, j < k → describeMiss (describeAnswer bc args w j)) →
      describeBLBLoop bc args (left + k) w =
        describeBLBLoop bc args left (describeWorld bc args w k) := by
  intro k
  induction k with
  | zero => intro left _; rfl
  | succ k ih =>
    intro left hm
    have h1 := ih (left + 1) (fun j hj => hm j (by omega))
    have e : left + (k + 1) = left + 1 + k := by omega
    rw [e, h1, describeBLBLoop_succ]
    obtain ⟨lbs, hl, hlen⟩ := hm k (by omega)
    have ha : describeAnswer bc args (describeWorld bc args w k) 0 =
        describeAnswer bc args w k := rfl
    rw [ha, hl]
    simp only [hlen, if_false]
    rfl

/-- The result of `describeBLB` read off describe call `k`, when the calls before it each
returned a list of length other than 1. -/
theorem describeBLB_at (bc : Baiducloud σ) (id : String) (service : Service) (w : World σ)
    (k : Nat) (hk : k ≤ 10)
    (hm : ∀ j, j < k → describeMiss (describeAnswer bc ⟨id, true⟩ w j)) :
    describeBLB bc id service w =
      match describeAnswer bc ⟨id, true⟩ w k with
      | Except.error e => (([], some (GoError.api e)), describeWorld bc ⟨id, true⟩ w (k + 1))
      | Except.ok lbs =>
        if lbs.length = 1 then ((lbs, none), describeWorld bc ⟨id, true⟩ w (k + 1))
        else describeBLBLoop bc ⟨id, true⟩ (10 - k) (describeWorld bc ⟨id, true⟩ w (k + 1)) := by
  have e : 11 = (10 - k + 1) + k := by omega
  rw [describeBLB_eq_loop, e, describeBLBLoop_skip bc ⟨id, true⟩ w k (10 - k + 1) hm,
    describeBLBLoop_succ]
  rfl

theorem describeAnswer_cases (bc : Baiducloud σ) (args : DescribeLoadBalancersArgs)
    (w : World σ) :
    (∃ k, k ≤ 10 ∧ (∀ j, j < k → describeMiss (describeAnswer bc args w j)) ∧
      ¬ describeMiss (describeAnswer bc args w k)) ∨
    (∀ j, j ≤ 10 → describeMiss (describeAnswer bc args w j)) := by
  classical
  by_cases h : ∃ k, k ≤ 10 ∧ ¬ describeMiss (describeAnswer bc args w k)
  · left
    refine ⟨Nat.find h, (Nat.find_spec h).1, ?_, (Nat.find_spec h).2⟩
    intro j hj
    by_contra hq
    exact Nat.find_min h hj ⟨by have := (Nat.find_spec h).1; omega, hq⟩
  · right
    intro j hj
    by_contra hq
    exact h ⟨j, hj, hq⟩

/-- C9: `describeBLB` returns without error exactly when some describe call among the initial
one (number 0) and the ten retries (numbers 1 to 10) returns a list of exactly one record and
no call before it returned an error. On success the returned list has length 1, so it is not
empty. When the initial call and all ten retries return lists of other lengths, the call fails
with the error of line 176 after exactly 11 describe requests. -/
theorem describeBLB_succeeds_iff (bc : Baiducloud σ) (id : String) (service : Service)
    (w : World σ) :
    ((describeBLB bc id service w).1.2 = none ↔
      ∃ k, k ≤ 10 ∧ (∀ j, j < k → ∀ e, describeAnswer bc ⟨id, true⟩ w j ≠ Except.error e) ∧
        describeOne (describeAnswer bc ⟨id, true⟩ w k)) ∧
    ((describeBLB bc id service w).1.2 = none →
      (describeBLB bc id service w).1.1.length = 1 ∧
      ∃ lb0, (describeBLB bc id service w).1.1 = [lb0]) ∧
    ((∀ k, k ≤ 10 → describeMiss (describeAnswer bc ⟨id, true⟩ w k)) →
      (describeBLB bc id service w).1 =
        ([], some (GoError.errorf "EnsureLoadBalancer create blb success but query get none")) ∧
      (describeBLB bc id service w).2.calls =
        w.calls ++ List.replicate 11 (Call.DescribeLoadBalancers ⟨id, true⟩)) := by
  have hall : (∀ k, k ≤ 10 → describeMiss (describeAnswer bc ⟨id, true⟩ w k)) →
      describeBLB bc id service w =
        (([], some (GoError.errorf "EnsureLoadBalancer create blb success but query get none")),
          describeWorld bc ⟨id, true⟩ w 11) := by
    intro hm
    have hat := describeBLB_at bc id service w 10 (by omega) (fun j hj => hm j (by omega))
    obtain ⟨lbs, hl, hlen⟩ := hm 10 (by omega)
    rw [hl] at hat
    simp only [hlen, if_false] at hat
    rw [hat]
    rfl
  have hfirst : ∀ k, k ≤ 10 →
      (∀ j, j < k → describeMiss (describeAnswer bc ⟨id, true⟩ w j)) →
      ¬ describeMiss (describeAnswer bc ⟨id, true⟩ w k) →
      ((describeBLB bc id service w).1.2 = none ↔
        describeOne (describeAnswer bc ⟨id, true⟩ w k)) ∧
      ((describeBLB bc id service w).1.2 = none →
        (describeBLB bc id service w).1.1.length = 1) := by
    intro k hk hm hnm
    have hat := describeBLB_at bc id service w k hk hm
    cases ha : describeAnswer bc ⟨id, true⟩ w k with
    | error e =>
      rw [ha] at hat
      rw [hat]
      refine ⟨⟨fun h => by simp at h, ?_⟩, fun h => by simp at h⟩
      rintro ⟨lbs, hl, _⟩
      cases hl
    | ok lbs =>
      have hlen : lbs.length = 1 := by
        by_contra hne
        exact hnm ⟨lbs, ha, hne⟩
      rw [ha] at hat
      simp only [hlen, if_true] at hat
      rw [hat]
      exact ⟨⟨fun _ => ⟨lbs, rfl, hlen⟩, fun _ => rfl⟩, fun _ => hlen⟩
  have hlen1 : (describeBLB bc id service w).1.2 = none →
      (describeBLB bc id service w).1.1.length = 1 := by
    intro hnone
    rcases describeAnswer_cases bc ⟨id, true⟩ w with ⟨k, hk, hm, hnm⟩ | hm
    · exact (hfirst k hk hm hnm).2 hnone
    · rw [hall hm] at hnone
      simp at hnone
  refine ⟨⟨?_, ?_⟩, ?_, ?_⟩
  · intro hnone
    rcases describeAnswer_cases bc ⟨id, true⟩ w with ⟨k, hk, hm, hnm⟩ | hm
    · refine ⟨k, hk, ?_, ((hfirst k hk hm hnm).1).mp hnone⟩
      intro j hj e he
      obtain ⟨lbs, hl, _⟩ := hm j hj
      rw [he] at hl
      cases hl
    · rw [hall hm] at hnone
      simp at hnone
  · rintro ⟨k, hk, hne, hone⟩
    rcases describeAnswer_cases bc ⟨id, true⟩ w with ⟨k1, hk1, hm1, hnm1⟩ | hm
    · have hle : k1 ≤ k := by
        by_contra hgt
        obtain ⟨lbs, hl, hlen⟩ := hm1 k (by omega)
        obtain ⟨lbs2, hl2, hlen2⟩ := hone
        rw [hl] at hl2
        cases hl2
        exact hlen hlen2
      refine ((hfirst k1 hk1 hm1 hnm1).1).mpr ?_
      rcases Nat.lt_or_eq_of_le hle with hlt | heq
      · cases ha : describeAnswer bc ⟨id, true⟩ w k1 with
        | error e => exact absurd ha (hne k1 hlt e)
        | ok lbs =>
          refine ⟨lbs, rfl, ?_⟩
          by_contra hlen
          exact hnm1 ⟨lbs, ha, hlen⟩
      · rw [heq]
        exact hone
    · obtain ⟨lbs, hl, hlen⟩ := hm k hk
      obtain ⟨lbs2, hl2, hlen2⟩ := hone
      rw [hl] at hl2
      cases hl2
      exact absurd hlen2 hlen
  · intro hnone
    refine ⟨hlen1 hnone, ?_⟩
    have h1 := hlen1 hnone
    match hl : (describeBLB bc id service w).1.1, h1 with
    | [lb0], _ => exact ⟨lb0, rfl⟩
  · intro hm
    rw [hall hm]
    exact ⟨rfl, describeWorld_calls bc ⟨id, true⟩ w 11⟩

/-- Worked instance of C9: against `demoCloud` the initial describe call already returns one
record, so `describeBLB` succeeds with a list of length 1. -/
theorem describeBLB_succeeds_iff_witness :
    (describeBLB demoCloud "lb-1" demoService demoWorld).1.2 = none ∧
      (describeBLB demoCloud "lb-1" demoService demoWorld).1.1.length = 1 :=
  ⟨(describeBLB_succeeds_iff demoCloud "lb-1" demoService demoWorld).1.mpr
      ⟨0, by decide, by intro j hj; omega, ⟨_, rfl, rfl⟩⟩,
    ((describeBLB_succeeds_iff demoCloud "lb-1" demoService demoWorld).2.1
      ((describeBLB_succeeds_iff demoCloud "lb-1" demoService demoWorld).1.mpr
        ⟨0, by decide, by intro j hj; omega, ⟨_, rfl, rfl⟩⟩)).1⟩

/-! ## Proofs: `getVpcInfoForBLB` -/

/-- When some subnet of the list carries a reserved name, the scan stops at the first such
subnet. -/
theorem findReservedSubnet_first (subnets : List Subnet)
    (h : ∃ x, x ∈ subnets ∧ (x.Name = "系统预定义子网" ∨ x.Name = "CCE-Reserve")) :
    ∃ pre found post, subnets = pre ++ found :: post ∧
      (∀ x, x ∈ pre → x.Name ≠ "系统预定义子网" ∧ x.Name ≠ "CCE-Reserve") ∧
      (found.Name = "系统预定义子网" ∨ found.Name = "CCE-Reserve") ∧
      findReservedSubnet subnets = some found := by
  induction subnets with
  | nil =>
    obtain ⟨x, hx, _⟩ := h
    cases hx
  | cons a rest ih =>
    by_cases h1 : a.Name = "系统预定义子网"
    · exact ⟨[], a, rest, rfl, by simp, Or.inl h1, by simp [findReservedSubnet, h1]⟩
    · by_cases h2 : a.Name = "CCE-Reserve"
      · exact ⟨[], a, rest, rfl, by simp, Or.inr h2, by simp [findReservedSubnet, h2]⟩
      · have hrest : ∃ x, x ∈ rest ∧ (x.Name = "系统预定义子网" ∨ x.Name = "CCE-Reserve") := by
          obtain ⟨x, hx, hn⟩ := h
          rcases List.mem_cons.mp hx with rfl | hx
          · rcases hn with hn | hn
            · exact absurd hn h1
            · exact absurd hn h2
          · exact ⟨x, hx, hn⟩
        obtain ⟨pre, found, post, he, hpre, hf, hfind⟩ := ih hrest
        refine ⟨a :: pre, found, post, by rw [he]; rfl, ?_, hf, ?_⟩
        · intro x hx
          rcases List.mem_cons.mp hx with rfl | hx
          · exact ⟨h1, h2⟩
          · exact hpre x hx
        · simp [findReservedSubnet, h1, h2, hfind]

/-- Against the claim C10 as worded: in `reserveCloud` the first instance's subnet is not of
type "BCC" and the subnet list of its VPC contains the subnet `cceSubnet` named "CCE-Reserve",
yet `getVpcInfoForBLB` returns the identifiers of the system-predefined subnet listed before
it, not those of the "CCE-Reserve" subnet. -/
theorem getVpcInfoForBLB_reserve_counterexample :
    (DescribeSubnet reserveCloud "sbn-1"
        (ListInstances reserveCloud reserveCloud.ClusterID demoWorld).2).1 =
      Except.ok ⟨"sbn-1", "nat", "zoneA", "192.168.0.0/24", "vpc-1", "NAT"⟩ ∧
    (ListSubnet reserveCloud "vpc-1"
        (DescribeSubnet reserveCloud "sbn-1"
          (ListInstances reserveCloud reserveCloud.ClusterID demoWorld).2).2).1 =
      Except.ok [sysSubnet, cceSubnet] ∧
    cceSubnet.Name = "CCE-Reserve" ∧
    (getVpcInfoForBLB reserveCloud 0 demoWorld).1 = some (("vpc-1", "sbn-sys"), none) ∧
    (getVpcInfoForBLB reserveCloud 0 demoWorld).1 ≠
      some ((cceSubnet.VpcID, cceSubnet.SubnetID), none) :=
  ⟨rfl, rfl, rfl, by decide, by decide⟩

/-- C10, amended: when the first instance's subnet is not of type "BCC" and the subnet list of
its VPC contains a subnet named "CCE-Reserve", `getVpcInfoForBLB` returns the VPC id and the
subnet id of the first subnet of the list that is named "系统预定义子网" or "CCE-Reserve" (a
"CCE-Reserve" subnet when no subnet of the list has the other name), and the requests it
issues are the three reads `ListInstances`, `DescribeSubnet`, `ListSubnet`: no `CreateSubnet`
request, whatever the fuel. -/
theorem getVpcInfoForBLB_reserved (bc : Baiducloud σ) (fuel : Nat) (w : World σ)
    (ins0 : Instance) (rest : List Instance) (subnet : Subnet) (subnets : List Subnet)
    (h1 : (ListInstances bc bc.ClusterID w).1 = Except.ok (ins0 :: rest))
    (h2 : (DescribeSubnet bc ins0.SubnetId (ListInstances bc bc.ClusterID w).2).1 =
      Except.ok subnet)
    (h3 : subnet.SubnetType ≠ "BCC")
    (h4 : (ListSubnet bc subnet.VpcID
      (DescribeSubnet bc ins0.SubnetId (ListInstances bc bc.ClusterID w).2).2).1 =
        Except.ok subnets)
    (h5 : ∃ x, x ∈ subnets ∧ x.Name = "CCE-Reserve") :
    ∃ pre found post, subnets = pre ++ found :: post ∧
      (∀ x, x ∈ pre → x.Name ≠ "系统预定义子网" ∧ x.Name ≠ "CCE-Reserve") ∧
      (found.Name = "系统预定义子网" ∨ found.Name = "CCE-Reserve") ∧
      ((∀ x, x ∈ subnets → x.Name ≠ "系统预定义子网") → found.Name = "CCE-Reserve") ∧
      (getVpcInfoForBLB bc fuel w).1 = some ((found.VpcID, found.SubnetID), none) ∧
      (getVpcInfoForBLB bc fuel w).2.calls =
        w.calls ++ [Call.ListInstances bc.ClusterID, Call.DescribeSubnet ins0.SubnetId,
          Call.ListSubnet subnet.VpcID] ∧
      (∀ args, Call.CreateSubnet args ∈ (getVpcInfoForBLB bc fuel w).2.calls →
        Call.CreateSubnet args ∈ w.calls) := by
  obtain ⟨x, hx, hn⟩ := h5
  obtain ⟨pre, found, post, he, hpre, hf, hfind⟩ :=
    findReservedSubnet_first subnets ⟨x, hx, Or.inr hn⟩
  have hres : getVpcInfoForBLB bc fuel w =
      (some ((found.VpcID, found.SubnetID), none),
        (ListSubnet bc subnet.VpcID
          (DescribeSubnet bc ins0.SubnetId (ListInstances bc bc.ClusterID w).2).2).2) := by
    simp only [getVpcInfoForBLB, h1, h2, h3, if_false, h4, hfind]
  have hcalls : (getVpcInfoForBLB bc fuel w).2.calls =
      w.calls ++ [Call.ListInstances bc.ClusterID, Call.DescribeSubnet ins0.SubnetId,
        Call.ListSubnet subnet.VpcID] := by
    rw [hres]
    simp [ListSubnet, DescribeSubnet, ListInstances]
  refine ⟨pre, found, post, he, hpre, hf, ?_, by rw [hres], hcalls, ?_⟩
  · intro hno
    rcases hf with hf | hf
    · exact absurd hf (hno found (by rw [he]; simp))
    · exact hf
  · intro args hmem
    rw [hcalls] at hmem
    simpa using hmem

/-- Worked instance of amended C10: in `reserveCloud` the scan stops at a subnet with a reserved
name and only the three reads are issued. -/
theorem getVpcInfoForBLB_reserved_witness :
    ∃ pre found post, [sysSubnet, cceSubnet] = pre ++ found :: post ∧
      (∀ x, x ∈ pre → x.Name ≠ "系统预定义子网" ∧ x.Name ≠ "CCE-Reserve") ∧
      (found.Name = "系统预定义子网" ∨ found.Name = "CCE-Reserve") ∧
      ((∀ x, x ∈ [sysSubnet, cceSubnet] → x.Name ≠ "系统预定义子网") →
        found.Name = "CCE-Reserve") ∧
      (getVpcInfoForBLB reserveCloud 3 demoWorld).1 =
        some ((found.VpcID, found.SubnetID), none) ∧
      (getVpcInfoForBLB reserveCloud 3 demoWorld).2.calls =
        demoWorld.calls ++ [Call.ListInstances "c-1", Call.DescribeSubnet "sbn-1",
          Call.ListSubnet "vpc-1"] ∧
      (∀ args, Call.CreateSubnet args ∈ (getVpcInfoForBLB reserveCloud 3 demoWorld).2.calls →
        Call.CreateSubnet args ∈ demoWorld.calls) :=
  getVpcInfoForBLB_reserved reserveCloud 3 demoWorld ⟨"vpc-1", "sbn-1"⟩ []
    ⟨"sbn-1", "nat", "zoneA", "192.168.0.0/24", "vpc-1", "NAT"⟩ [sysSubnet, cceSubnet]
    rfl rfl (by decide) rfl ⟨cceSubnet, by simp, rfl⟩

/-! ## Proofs: the requests of a run -/

theorem Extends.refl (P : Call → Prop) (w : World σ) : Extends P w w :=
  ⟨[], by simp, by simp⟩

theorem Extends.trans {P : Call → Prop} {w w1 w2 : World σ} (h1 : Extends P w w1)
    (h2 : Extends P w1 w2) : Extends P w w2 := by
  obtain ⟨l1, e1, p1⟩ := h1
  obtain ⟨l2, e2, p2⟩ := h2
  refine ⟨l1 ++ l2, by rw [e2, e1, List.append_assoc], ?_⟩
  intro c hc
  rcases List.mem_append.mp hc with h | h
  · exact p1 c h
  · exact p2 c h

theorem Extends.mono {P Q : Call → Prop} {w w1 : World σ} (h : Extends P w w1)
    (hPQ : ∀ c, P c → Q c) : Extends Q w w1 := by
  obtain ⟨l, e, p⟩ := h
  exact ⟨l, e, fun c hc => hPQ c (p c hc)⟩

theorem Extends.single {P : Call → Prop} {w w1 : World σ} (c : Call)
    (h : w1.calls = w.calls ++ [c]) (hc : P c) : Extends P w w1 :=
  ⟨[c], h, by simpa using hc⟩

theorem waitForLoadBalancerBody_extends (bc : Baiducloud σ) (index : Nat) (lb : LoadBalancer)
    (w : World σ) : Extends Call.isPoll w (waitForLoadBalancerBody bc index lb w).2 := by
  have hw : (waitForLoadBalancerBody bc index lb w).2 = (getBCELoadBalancerById bc lb.BlbId w).2 := by
    simp only [waitForLoadBalancerBody]
    split
    · rfl
    · split
      · split <;> rfl
      · split <;> rfl
  rw [hw]
  exact Extends.single (Call.getBCELoadBalancerById lb.BlbId) rfl ⟨_, rfl⟩

theorem waitForLoadBalancerLoop_extends (bc : Baiducloud σ) :
    ∀ (n index : Nat) (lb : LoadBalancer) (w : World σ),
      Extends Call.isPoll w (waitForLoadBalancerLoop bc n index lb w).2 := by
  intro n
  induction n with
  | zero => intro index lb w; exact Extends.refl _ _
  | succ n ih =>
    intro index lb w
    simp only [waitForLoadBalancerLoop]
    split
    · have hb := waitForLoadBalancerBody_extends bc index lb w
      split
      · rename_i ret w1 heq
        rw [heq] at hb
        exact hb
      · rename_i lb1 w1 heq
        rw [heq] at hb
        exact hb.trans (ih (index + 1) lb1 w1)
    · exact Extends.refl _ _

theorem waitForLoadBalancer_extends (bc : Baiducloud σ) (lb : LoadBalancer) (w : World σ) :
    Extends Call.isPoll w (waitForLoadBalancer bc lb w).2 :=
  waitForLoadBalancerLoop_extends bc 10 0 _ w

/-- How a wait phase of `ensureBLB` ends when it does not hand on a record: with a panic, or
with the error of the wait after `dealWithError` has seen it. -/
theorem ensureBLBWait_inl (bc : Baiducloud σ) (service : Service) (svcAnno : ServiceAnnotation)
    (lb : LoadBalancer) (w : World σ) (fin : Final σ)
    (h : ensureBLBWait bc service svcAnno lb w = Sum.inl fin) :
    fin.w = (waitForLoadBalancer bc lb w).2 ∧ fin.svcAnno = svcAnno ∧
    ((fin.out = Outcome.panicked ∧ fin.service = service) ∨
      ∃ err, (waitForLoadBalancer bc lb w).1.2 = some err ∧
        fin.out = Outcome.ret none (some err) ∧ fin.service = dealWithError bc err service) := by
  rcases hr : (waitForLoadBalancer bc lb w).1 with ⟨_ | lb2, _ | err⟩
  · simp only [ensureBLBWait, hr] at h
    cases h
    exact ⟨rfl, rfl, Or.inl ⟨rfl, rfl⟩⟩
  · simp only [ensureBLBWait, hr] at h
    cases h
    exact ⟨rfl, rfl, Or.inr ⟨err, rfl, rfl, rfl⟩⟩
  · simp only [ensureBLBWait, hr] at h
    cases h
  · simp only [ensureBLBWait, hr] at h
    cases h
    exact ⟨rfl, rfl, Or.inr ⟨err, rfl, rfl, rfl⟩⟩

theorem ensureBLBWait_inr (bc : Baiducloud σ) (service : Service) (svcAnno : ServiceAnnotation)
    (lb : LoadBalancer) (w : World σ) (lb1 : LoadBalancer) (w1 : World σ)
    (h : ensureBLBWait bc service svcAnno lb w = Sum.inr (lb1, w1)) :
    waitForLoadBalancer bc lb w = ((some lb1, none), w1) := by
  rcases hr : (waitForLoadBalancer bc lb w).1 with ⟨_ | lb2, _ | err⟩
  · simp only [ensureBLBWait, hr] at h
    cases h
  · simp only [ensureBLBWait, hr] at h
    cases h
  · simp only [ensureBLBWait, hr] at h
    cases h
    exact Prod.ext hr rfl
  · simp only [ensureBLBWait, hr] at h
    cases h

theorem String.length_eq_zero_iff (s : String) : s.length = 0 ↔ s = "" := by
  constructor
  · intro h
    apply String.ext
    exact List.length_eq_zero.mp h
  · intro h
    rw [h]
    rfl

theorem reconcileListeners_extends (bc : Baiducloud σ) (service : Service) (lb : LoadBalancer)
    (w : World σ) : Extends Call.isPhase w (reconcileListeners bc service lb w).2 :=
  Extends.single (Call.reconcileListeners lb) rfl (Or.inr (Or.inl ⟨lb, rfl⟩))

theorem reconcileBackendServers_extends (bc : Baiducloud σ) (service : Service)
    (nodes : List Node) (lb : LoadBalancer) (w : World σ) :
    Extends Call.isPhase w (reconcileBackendServers bc service nodes lb w).2 :=
  Extends.single (Call.reconcileBackendServers nodes lb) rfl (Or.inr (Or.inr ⟨nodes, lb, rfl⟩))

theorem ensureBLBWait_extends (bc : Baiducloud σ) (service : Service) (svcAnno : ServiceAnnotation)
    (lb : LoadBalancer) (w : World σ) :
    (∀ fin, ensureBLBWait bc service svcAnno lb w = Sum.inl fin → Extends Call.isPhase w fin.w) ∧
    (∀ lb1 w1, ensureBLBWait bc service svcAnno lb w = Sum.inr (lb1, w1) →
      Extends Call.isPhase w w1) := by
  have hw : Extends Call.isPhase w (waitForLoadBalancer bc lb w).2 :=
    (waitForLoadBalancer_extends bc lb w).mono (fun c hc => Or.inl hc)
  constructor
  · intro fin h
    rw [(ensureBLBWait_inl bc service svcAnno lb w fin h).1]
    exact hw
  · intro lb1 w1 h
    have := ensureBLBWait_inr bc service svcAnno lb w lb1 w1 h
    rw [this] at hw
    exact hw

/-- The ways in which lines 100-128 of `ensureBLB` end, and the requests they issue. -/
theorem ensureBLBPhases_spec (bc : Baiducloud σ) (service : Service) (nodes : List Node)
    (svcAnno : ServiceAnnotation) (lb : LoadBalancer) (w : World σ) :
    Extends Call.isPhase w (ensureBLBPhases bc service nodes svcAnno lb w).w ∧
    (((ensureBLBPhases bc service nodes svcAnno lb w).out = Outcome.panicked ∧
        (ensureBLBPhases bc service nodes svcAnno lb w).service = service) ∨
      (∃ err, (ensureBLBPhases bc service nodes svcAnno lb w).out = Outcome.ret none (some err) ∧
        (ensureBLBPhases bc service nodes svcAnno lb w).service = dealWithError bc err service) ∨
      (∃ lb3, (ensureBLBPhases bc service nodes svcAnno lb w).out = Outcome.ret (some lb3) none ∧
        (ensureBLBPhases bc service nodes svcAnno lb w).service = service)) := by
  have fromWait : ∀ (lbx : LoadBalancer) (wx : World σ) (fin : Final σ),
      ensureBLBWait bc service svcAnno lbx wx = Sum.inl fin →
      ((fin.out = Outcome.panicked ∧ fin.service = service) ∨
        (∃ err, fin.out = Outcome.ret none (some err) ∧
          fin.service = dealWithError bc err service) ∨
        (∃ lb3, fin.out = Outcome.ret (some lb3) none ∧ fin.service = service)) := by
    intro lbx wx fin h
    rcases (ensureBLBWait_inl bc service svcAnno lbx wx fin h).2.2 with hp | ⟨err, _, ho, hs⟩
    · exact Or.inl hp
    · exact Or.inr (Or.inl ⟨err, ho, hs⟩)
  unfold ensureBLBPhases
  cases h1 : ensureBLBWait bc service svcAnno lb w with
  | inl fin =>
    exact ⟨(ensureBLBWait_extends bc service svcAnno lb w).1 fin h1, fromWait lb w fin h1⟩
  | inr p1 =>
    obtain ⟨lb1, w1⟩ := p1
    have e1 := (ensureBLBWait_extends bc service svcAnno lb w).2 lb1 w1 h1
    have e2 := e1.trans (reconcileListeners_extends bc service lb1 w1)
    simp only []
    cases h2 : (reconcileListeners bc service lb1 w1).1 with
    | some e => exact ⟨e2, Or.inr (Or.inl ⟨GoError.api e, rfl, rfl⟩)⟩
    | none =>
      simp only []
      cases h3 : ensureBLBWait bc service svcAnno lb1 (reconcileListeners bc service lb1 w1).2 with
      | inl fin =>
        exact ⟨e2.trans ((ensureBLBWait_extends bc service svcAnno lb1 _).1 fin h3),
          fromWait lb1 _ fin h3⟩
      | inr p3 =>
        obtain ⟨lb2, w3⟩ := p3
        have e3 := e2.trans ((ensureBLBWait_extends bc service svcAnno lb1 _).2 lb2 w3 h3)
        have e4 := e3.trans (reconcileBackendServers_extends bc service nodes lb2 w3)
        simp only []
        cases h4 : (reconcileBackendServers bc service nodes lb2 w3).1 with
        | some e => exact ⟨e4, Or.inr (Or.inl ⟨GoError.api e, rfl, rfl⟩)⟩
        | none =>
          simp only []
          cases h5 : ensureBLBWait bc service svcAnno lb2
              (reconcileBackendServers bc service nodes lb2 w3).2 with
          | inl fin =>
            exact ⟨e4.trans ((ensureBLBWait_extends bc service svcAnno lb2 _).1 fin h5),
              fromWait lb2 _ fin h5⟩
          | inr p5 =>
            obtain ⟨lb3, w5⟩ := p5
            exact ⟨e4.trans ((ensureBLBWait_extends bc service svcAnno lb2 _).2 lb3 w5 h5),
              Or.inr (Or.inr ⟨lb3, rfl, rfl⟩)⟩

/-! ## Proofs: `ensureBLB` -/

/-- C4: when the desired state declares a pre-existing identifier and no auto-managed one
(the desired state is read off the annotation map, so the map is not nil), the identifier
resolves to an existing load balancer and that one has at least one listener, then `ensureBLB`
fails with the error of line 93, the annotation map on return holds the sentinel
"error_blb_has_been_used" under the pre-existing identifier key, and the only requests issued
are the resolution and the listing of listeners: no `reconcileListeners`, no
`reconcileBackendServers` and no poll of `waitForLoadBalancer`. -/
theorem ensureBLB_conflict (bc : Baiducloud σ) (fuel : Nat) (clusterName : String)
    (service : Service) (nodes : List Node) (svcAnno : ServiceAnnotation) (w : World σ)
    (m : GoMap) (lb0 : LoadBalancer) (ls : List Listener)
    (hE : svcAnno.LoadBalancerExistId ≠ "")
    (hA : svcAnno.CceAutoAddLoadBalancerId = "")
    (hm : service.Annotations = some m)
    (hget : (getBCELoadBalancerById bc svcAnno.LoadBalancerExistId w).1 = ⟨lb0, true, none⟩)
    (hls : (getAllListeners bc lb0
      (getBCELoadBalancerById bc svcAnno.LoadBalancerExistId w).2).1 = Except.ok ls)
    (hne : 0 < ls.length) :
    (ensureBLB bc fuel clusterName service nodes svcAnno w).out =
      Outcome.ret none (some (GoError.errorf " This blb has been used already! ")) ∧
    (ensureBLB bc fuel clusterName service nodes svcAnno w).service.Annotations =
      some (m.set bc.ServiceAnnotationLoadBalancerExistId "error_blb_has_been_used") ∧
    (ensureBLB bc fuel clusterName service nodes svcAnno w).service.lookup
      bc.ServiceAnnotationLoadBalancerExistId = some "error_blb_has_been_used" ∧
    (ensureBLB bc fuel clusterName service nodes svcAnno w).w.calls =
      w.calls ++ [Call.getBCELoadBalancerById svcAnno.LoadBalancerExistId,
        Call.getAllListeners lb0] := by
  have hE2 : ¬ svcAnno.LoadBalancerExistId.length = 0 :=
    fun h => hE ((String.length_eq_zero_iff _).mp h)
  have hA2 : svcAnno.CceAutoAddLoadBalancerId.length = 0 :=
    (String.length_eq_zero_iff _).mpr hA
  have hg : 0 < ls.length ∧ svcAnno.CceAutoAddLoadBalancerId.length = 0 := ⟨hne, hA2⟩
  have hres : ensureBLB bc fuel clusterName service nodes svcAnno w =
      ⟨Outcome.ret none (some (GoError.errorf " This blb has been used already! ")),
        { service with
          Annotations := some
            (m.set bc.ServiceAnnotationLoadBalancerExistId "error_blb_has_been_used") },
        svcAnno,
        (getAllListeners bc lb0 (getBCELoadBalancerById bc svcAnno.LoadBalancerExistId w).2).2⟩ := by
    simp only [ensureBLB, ensureBLBResolve, hE2, if_false, ensureBLBExist, hget, hls,
      gt_iff_lt, hg, and_self, if_true, hm]
    simp
  rw [hres]
  refine ⟨rfl, rfl, ?_, ?_⟩
  · simp [Service.lookup, GoMap.get_set_self]
  · simp [getAllListeners, getBCELoadBalancerById]

/-- Worked instance of C4: the declared load balancer "lb-7" of `usedCloud` has a listener. -/
theorem ensureBLB_conflict_witness :
    (ensureBLB usedCloud 0 "k" existService [] ⟨"lb-7", "", ""⟩ demoWorld).out =
      Outcome.ret none (some (GoError.errorf " This blb has been used already! ")) ∧
    (ensureBLB usedCloud 0 "k" existService [] ⟨"lb-7", "", ""⟩ demoWorld).service.Annotations =
      some (GoMap.set [(demoCloud.ServiceAnnotationLoadBalancerExistId, "lb-7")]
        usedCloud.ServiceAnnotationLoadBalancerExistId "error_blb_has_been_used") ∧
    (ensureBLB usedCloud 0 "k" existService [] ⟨"lb-7", "", ""⟩ demoWorld).service.lookup
      usedCloud.ServiceAnnotationLoadBalancerExistId = some "error_blb_has_been_used" ∧
    (ensureBLB usedCloud 0 "k" existService [] ⟨"lb-7", "", ""⟩ demoWorld).w.calls =
      demoWorld.calls ++ [Call.getBCELoadBalancerById "lb-7",
        Call.getAllListeners ⟨"lb-7", "", "creating", ""⟩] :=
  ensureBLB_conflict usedCloud 0 "k" existService [] ⟨"lb-7", "", ""⟩ demoWorld
    [(demoCloud.ServiceAnnotationLoadBalancerExistId, "lb-7")] ⟨"lb-7", "", "creating", ""⟩
    [⟨80⟩] (by decide) rfl rfl rfl rfl (by decide)

/-- C5: when the desired state carries an auto-managed identifier and no pre-existing one,
the first request of `ensureBLB` is the resolution of that identifier, and every later request
is a poll by identifier, `reconcileListeners` or `reconcileBackendServers`, whatever the cloud
answers: no `CreateLoadBalancer` request and no lookup by logical name is issued. When the
cloud reports the identifier absent, the call fails with the error of line 71, the resolution
is its only request and the service is left as it was. -/
theorem ensureBLB_bound_no_create (bc : Baiducloud σ) (fuel : Nat) (clusterName : String)
    (service : Service) (nodes : List Node) (svcAnno : ServiceAnnotation) (w : World σ)
    (hE : svcAnno.LoadBalancerExistId = "")
    (hA : svcAnno.CceAutoAddLoadBalancerId ≠ "") :
    ∃ l, (ensureBLB bc fuel clusterName service nodes svcAnno w).w.calls =
        w.calls ++ Call.getBCELoadBalancerById svcAnno.CceAutoAddLoadBalancerId :: l ∧
      (∀ c, c ∈ l → c.isPhase) ∧
      (∀ args, Call.CreateLoadBalancer args ∉
        Call.getBCELoadBalancerById svcAnno.CceAutoAddLoadBalancerId :: l) ∧
      (∀ name, Call.getBCELoadBalancer name ∉
        Call.getBCELoadBalancerById svcAnno.CceAutoAddLoadBalancerId :: l) ∧
      ((getBCELoadBalancerById bc svcAnno.CceAutoAddLoadBalancerId w).1.absent →
        l = [] ∧
        (ensureBLB bc fuel clusterName service nodes svcAnno w).out =
          Outcome.ret none (some (GoError.errorf
            ("EnsureLoadBalancer getBCELoadBalancerById failed, target blb not exist, blb id: "
              ++ svcAnno.CceAutoAddLoadBalancerId))) ∧
        (ensureBLB bc fuel clusterName service nodes svcAnno w).service = service) := by
  have hE2 : svcAnno.LoadBalancerExistId.length = 0 := (String.length_eq_zero_iff _).mpr hE
  have hA2 : ¬ svcAnno.CceAutoAddLoadBalancerId.length = 0 :=
    fun h => hA ((String.length_eq_zero_iff _).mp h)
  have hphase : ∀ (l : List Call), (∀ c, c ∈ l → c.isPhase) →
      (∀ args, Call.CreateLoadBalancer args ∉
        Call.getBCELoadBalancerById svcAnno.CceAutoAddLoadBalancerId :: l) ∧
      (∀ name, Call.getBCELoadBalancer name ∉
        Call.getBCELoadBalancerById svcAnno.CceAutoAddLoadBalancerId :: l) := by
    intro l hl
    constructor
    · intro args hmem
      rcases List.mem_cons.mp hmem with h | h
      · cases h
      · rcases hl _ h with ⟨id, h⟩ | ⟨lb, h⟩ | ⟨ns, lb, h⟩ <;> cases h
    · intro name hmem
      rcases List.mem_cons.mp hmem with h | h
      · cases h
      · rcases hl _ h with ⟨id, h⟩ | ⟨lb, h⟩ | ⟨ns, lb, h⟩ <;> cases h
  have hcalls : (getBCELoadBalancerById bc svcAnno.CceAutoAddLoadBalancerId w).2.calls =
      w.calls ++ [Call.getBCELoadBalancerById svcAnno.CceAutoAddLoadBalancerId] := rfl
  cases herr : (getBCELoadBalancerById bc svcAnno.CceAutoAddLoadBalancerId w).1.err with
  | some e =>
    have hres : ensureBLB bc fuel clusterName service nodes svcAnno w =
        ⟨Outcome.ret none (some (GoError.api e)), service, svcAnno,
          (getBCELoadBalancerById bc svcAnno.CceAutoAddLoadBalancerId w).2⟩ := by
      simp only [ensureBLB, ensureBLBResolve, hE2, if_true, ensureBLBLookup, hA2, if_false,
        ensureBLBCreateOrGet, herr]
    rw [hres]
    refine ⟨[], hcalls, by simp, (hphase [] (by simp)).1, (hphase [] (by simp)).2, ?_⟩
    intro habs
    rw [habs.1] at herr
    cases herr
  | none =>
    cases hex : (getBCELoadBalancerById bc svcAnno.CceAutoAddLoadBalancerId w).1.exist with
    | false =>
      have hres : ensureBLB bc fuel clusterName service nodes svcAnno w =
          ⟨Outcome.ret none (some (GoError.errorf
            ("EnsureLoadBalancer getBCELoadBalancerById failed, target blb not exist, blb id: "
              ++ svcAnno.CceAutoAddLoadBalancerId))), service, svcAnno,
            (getBCELoadBalancerById bc svcAnno.CceAutoAddLoadBalancerId w).2⟩ := by
        simp only [ensureBLB, ensureBLBResolve, hE2, if_true, ensureBLBLookup, hA2, if_false,
          ensureBLBCreateOrGet, herr, hex]
      rw [hres]
      exact ⟨[], hcalls, by simp, (hphase [] (by simp)).1, (hphase [] (by simp)).2,
        fun _ => ⟨rfl, rfl, rfl⟩⟩
    | true =>
      have hres : ensureBLB bc fuel clusterName service nodes svcAnno w =
          ensureBLBPhases bc service nodes svcAnno
            (getBCELoadBalancerById bc svcAnno.CceAutoAddLoadBalancerId w).1.lb
            (getBCELoadBalancerById bc svcAnno.CceAutoAddLoadBalancerId w).2 := by
        simp only [ensureBLB, ensureBLBResolve, hE2, if_true, ensureBLBLookup, hA2, if_false,
          ensureBLBCreateOrGet, herr, hex]
        simp
      rw [hres]
      obtain ⟨l, hl, hp⟩ := (ensureBLBPhases_spec bc service nodes svcAnno
        (getBCELoadBalancerById bc svcAnno.CceAutoAddLoadBalancerId w).1.lb
        (getBCELoadBalancerById bc svcAnno.CceAutoAddLoadBalancerId w).2).1
      refine ⟨l, ?_, hp, (hphase l hp).1, (hphase l hp).2, ?_⟩
      · rw [hl, hcalls, List.append_assoc]
        rfl
      · intro habs
        rw [habs.2] at hex
        cases hex

/-- Worked instance of C5: the bound identifier "lb-9" is reported absent by `goneCloud`. -/
theorem ensureBLB_bound_no_create_witness :
    ∃ l, (ensureBLB goneCloud 0 "k" boundService [] ⟨"", "lb-9", ""⟩ demoWorld).w.calls =
        demoWorld.calls ++ Call.getBCELoadBalancerById "lb-9" :: l ∧
      (∀ c, c ∈ l → c.isPhase) ∧
      (∀ args, Call.CreateLoadBalancer args ∉ Call.getBCELoadBalancerById "lb-9" :: l) ∧
      (∀ name, Call.getBCELoadBalancer name ∉ Call.getBCELoadBalancerById "lb-9" :: l) ∧
      ((getBCELoadBalancerById goneCloud "lb-9" demoWorld).1.absent →
        l = [] ∧
        (ensureBLB goneCloud 0 "k" boundService [] ⟨"", "lb-9", ""⟩ demoWorld).out =
          Outcome.ret none (some (GoError.errorf
            ("EnsureLoadBalancer getBCELoadBalancerById failed, target blb not exist, blb id: "
              ++ "lb-9"))) ∧
        (ensureBLB goneCloud 0 "k" boundService [] ⟨"", "lb-9", ""⟩ demoWorld).service =
          boundService) :=
  ensureBLB_bound_no_create goneCloud 0 "k" boundService [] ⟨"", "lb-9", ""⟩ demoWorld rfl
    (by decide)

/-- Nine quiet polls followed by an absent tenth: the wait returns `errBlbNotExist`. -/
theorem waitForLoadBalancer_vanished (bc : Baiducloud σ) (lb : LoadBalancer) (w : World σ)
    (hq : ∀ j, 1 ≤ j → j ≤ 9 → (waitPoll bc lb w j).quiet)
    (habs : (waitPoll bc lb w 10).absent) :
    waitForLoadBalancer bc lb w =
      ((some (waitPoll bc lb w 10).lb, some GoError.errBlbNotExist), waitWorld bc lb w 10) := by
  have pre : ∀ j, j < 9 → (pollAnswer bc ({ lb with Status := "unknown" }, w) j).quiet := by
    intro j hj
    have := hq (j + 1) (by omega) (by omega)
    simpa [waitPoll] using this
  have hat := waitForLoadBalancer_at bc lb w 9 (by omega) pre
  have habs2 : (pollAnswer bc ({ lb with Status := "unknown" }, w) 9).absent := habs
  have hna : ¬ (pollAnswer bc ({ lb with Status := "unknown" }, w) 9).available := by
    intro ha
    have := ha.2.1
    rw [habs2.2] at this
    exact Bool.noConfusion this
  rw [habs2.1] at hat
  simp only [hna, if_false, habs2.2] at hat
  rw [hat]
  simp [waitPoll, waitWorld]

theorem createBLB_err_ne (bc : Baiducloud σ) (fuel : Nat) (service : Service)
    (svcAnno : ServiceAnnotation) (w : World σ) (id : String) (err : GoError)
    (h : (createBLB bc fuel service svcAnno w).1 = some (id, some err)) :
    err ≠ GoError.errBlbNotExist := by
  intro he
  subst he
  simp only [createBLB] at h
  split at h
  · cases h
  · cases h
  · split at h
    · cases h
    · cases h

theorem describeBLBLoop_err_ne (bc : Baiducloud σ) (args : DescribeLoadBalancersArgs) :
    ∀ (left : Nat) (w : World σ),
      (describeBLBLoop bc args left w).1.2 ≠ some GoError.errBlbNotExist := by
  intro left
  induction left with
  | zero => intro w h; cases h
  | succ left ih =>
    intro w h
    simp only [describeBLBLoop] at h
    split at h
    · cases h
    · split at h
      · cases h
      · exact ih _ h

theorem describeBLB_err_ne (bc : Baiducloud σ) (id : String) (service : Service) (w : World σ) :
    (describeBLB bc id service w).1.2 ≠ some GoError.errBlbNotExist := by
  rw [describeBLB_eq_loop]
  exact describeBLBLoop_err_ne bc _ 11 w

/-- Lines 29-98 of `ensureBLB` never end the call with `errBlbNotExist`, and when they end it
the service is the one passed in, except for the sentinel written at line 92. -/
theorem ensureBLBResolve_inl_ne (bc : Baiducloud σ) (fuel : Nat) (service : Service)
    (svcAnno : ServiceAnnotation) (w : World σ) (fin : Final σ)
    (h : ensureBLBResolve bc fuel service svcAnno w = Sum.inl fin) (lb : Option LoadBalancer) :
    fin.out ≠ Outcome.ret lb (some GoError.errBlbNotExist) := by
  intro hout
  simp only [ensureBLBResolve] at h
  split at h
  · split at h
    · rename_i fin1 hlk
      cases h
      simp only [ensureBLBLookup] at hlk
      split at hlk
      · split at hlk
        · cases hlk
          cases hout
        · split at hlk <;> cases hlk
      · cases hlk
    · rename_i s hlk
      simp only [ensureBLBCreateOrGet] at h
      split at h
      · split at h
        · cases h
          cases hout
        · rename_i x err hc
          cases h
          simp only [Outcome.ret.injEq] at hout
          have := createBLB_err_ne bc fuel s.service s.svcAnno s.w _ err hc
          exact this (by simpa using hout.2)
        · split at h
          · rename_i x0 id0 hc0 x1 x err hd
            cases h
            simp only [Outcome.ret.injEq] at hout
            have hn := describeBLB_err_ne bc id0 s.service
              (createBLB bc fuel s.service s.svcAnno s.w).2
            rw [hd] at hn
            exact hn (by simpa using hout.2)
          · cases h
            cases hout
          · cases h
      · split at h
        · split at h
          · cases h
            cases hout
          · split at h
            · cases h
              cases hout
            · cases h
        · cases h
  · simp only [ensureBLBExist] at h
    split at h
    · cases h
      cases hout
    · split at h
      · cases h
        cases hout
      · split at h
        · cases h
          cases hout
        · split at h
          · split at h
            · cases h
              cases hout
            · cases h
              cases hout
          · split at h
            · cases h
              cases hout
            · cases h

theorem dealWithError_removes (bc : Baiducloud σ) (service : Service) :
    (dealWithError bc GoError.errBlbNotExist service).lookup
      bc.ServiceAnnotationCceAutoAddLoadBalancerId = none := by
  cases h : service.Annotations <;>
    simp [dealWithError, Service.lookup, h, GoMap.get_delete_self]

/-- Against the claim C7 as worded: the annotation map holds the auto-managed identifier
"lb-9", the cloud `goneCloud` reports it absent in the initial resolution, the call fails, and
the key is still in the annotation map on return. -/
theorem ensureBLB_initial_absence_counterexample :
    boundService.lookup goneCloud.ServiceAnnotationCceAutoAddLoadBalancerId = some "lb-9" ∧
    (getBCELoadBalancerById goneCloud "lb-9" demoWorld).1.absent ∧
    (ensureBLB goneCloud 0 "k" boundService [] ⟨"", "lb-9", ""⟩ demoWorld).out =
      Outcome.ret none (some (GoError.errorf
        "EnsureLoadBalancer getBCELoadBalancerById failed, target blb not exist, blb id: lb-9")) ∧
    (ensureBLB goneCloud 0 "k" boundService [] ⟨"", "lb-9", ""⟩ demoWorld).service.lookup
      goneCloud.ServiceAnnotationCceAutoAddLoadBalancerId = some "lb-9" := by
  refine ⟨by decide, by decide, by decide, by decide⟩

/-- C7, amended: whenever `ensureBLB` returns `errBlbNotExist`, the auto-managed identifier key
is not in the annotation map on return; that is the case of every wait phase whose tenth poll
reports the resource absent after nine polls without error and without an "available" report.
When instead the initial resolution of the auto-managed identifier reports it absent, the call
fails with the error of line 71 and the service, its annotation map included, is left as it
was. -/
theorem ensureBLB_vanished (bc : Baiducloud σ) (fuel : Nat) (clusterName : String)
    (service : Service) (nodes : List Node) (svcAnno : ServiceAnnotation) (w : World σ) :
    (∀ lb, (ensureBLB bc fuel clusterName service nodes svcAnno w).out =
        Outcome.ret lb (some GoError.errBlbNotExist) →
      (ensureBLB bc fuel clusterName service nodes svcAnno w).service.lookup
        bc.ServiceAnnotationCceAutoAddLoadBalancerId = none) ∧
    (∀ (svc : Service) (sa : ServiceAnnotation) (lb : LoadBalancer) (w1 : World σ),
      (∀ j, 1 ≤ j → j ≤ 9 → (waitPoll bc lb w1 j).quiet) → (waitPoll bc lb w1 10).absent →
      ∃ fin, ensureBLBWait bc svc sa lb w1 = Sum.inl fin ∧
        fin.out = Outcome.ret none (some GoError.errBlbNotExist) ∧
        fin.service.lookup bc.ServiceAnnotationCceAutoAddLoadBalancerId = none) ∧
    (svcAnno.LoadBalancerExistId = "" → svcAnno.CceAutoAddLoadBalancerId ≠ "" →
      (getBCELoadBalancerById bc svcAnno.CceAutoAddLoadBalancerId w).1.absent →
      (ensureBLB bc fuel clusterName service nodes svcAnno w).out =
        Outcome.ret none (some (GoError.errorf
          ("EnsureLoadBalancer getBCELoadBalancerById failed, target blb not exist, blb id: "
            ++ svcAnno.CceAutoAddLoadBalancerId))) ∧
      (ensureBLB bc fuel clusterName service nodes svcAnno w).service = service) := by
  refine ⟨?_, ?_, ?_⟩
  · intro lb hout
    unfold ensureBLB at hout ⊢
    cases hr : ensureBLBResolve bc fuel service svcAnno w with
    | inl fin =>
      rw [hr] at hout
      exact absurd hout (ensureBLBResolve_inl_ne bc fuel service svcAnno w fin hr lb)
    | inr s =>
      rw [hr] at hout
      simp only [] at hout ⊢
      cases hlb : s.lb with
      | none =>
        rw [hlb] at hout
        cases hout
      | some lb0 =>
        rw [hlb] at hout
        simp only [] at hout ⊢
        rcases (ensureBLBPhases_spec bc s.service nodes s.svcAnno lb0 s.w).2 with
          ⟨hp, _⟩ | ⟨err, ho, hs⟩ | ⟨lb3, ho, _⟩
        · rw [hp] at hout
          cases hout
        · rw [ho] at hout
          cases hout
          rw [hs]
          exact dealWithError_removes bc s.service
        · rw [ho] at hout
          cases hout
  · intro svc sa lb w1 hq habs
    have hw := waitForLoadBalancer_vanished bc lb w1 hq habs
    refine ⟨⟨Outcome.ret none (some GoError.errBlbNotExist),
      dealWithError bc GoError.errBlbNotExist svc, sa, (waitForLoadBalancer bc lb w1).2⟩,
      ?_, rfl, dealWithError_removes bc svc⟩
    simp only [ensureBLBWait, hw]
  · intro hE hA habs
    have hE2 : svcAnno.LoadBalancerExistId.length = 0 := (String.length_eq_zero_iff _).mpr hE
    have hA2 : ¬ svcAnno.CceAutoAddLoadBalancerId.length = 0 :=
      fun h => hA ((String.length_eq_zero_iff _).mp h)
    have hres : ensureBLB bc fuel clusterName service nodes svcAnno w =
        ⟨Outcome.ret none (some (GoError.errorf
          ("EnsureLoadBalancer getBCELoadBalancerById failed, target blb not exist, blb id: "
            ++ svcAnno.CceAutoAddLoadBalancerId))), service, svcAnno,
          (getBCELoadBalancerById bc svcAnno.CceAutoAddLoadBalancerId w).2⟩ := by
      simp only [ensureBLB, ensureBLBResolve, hE2, if_true, ensureBLBLookup, hA2, if_false,
        ensureBLBCreateOrGet, habs.1, habs.2]
    rw [hres]
    exact ⟨rfl, rfl⟩

/-- Worked instance of amended C7: in `vanishCloud` the bound load balancer "lb-9" is found by
the initial resolution and reported absent by all ten polls of the first wait phase; the call
returns `errBlbNotExist` and the key is gone from the annotation map. -/
theorem ensureBLB_vanished_witness :
    (ensureBLB vanishCloud 0 "k" boundService [] ⟨"", "lb-9", ""⟩ demoWorld).out =
      Outcome.ret none (some GoError.errBlbNotExist) ∧
    (ensureBLB vanishCloud 0 "k" boundService [] ⟨"", "lb-9", ""⟩ demoWorld).service.lookup
      vanishCloud.ServiceAnnotationCceAutoAddLoadBalancerId = none :=
  ⟨by decide,
    (ensureBLB_vanished vanishCloud 0 "k" boundService [] ⟨"", "lb-9", ""⟩ demoWorld).1 none
      (by decide)⟩

/-! ## Proofs: the creation path of `ensureBLB` -/

theorem getVpcInfoForBLBLoop_extends (bc : Baiducloud σ) (subnet : Subnet) :
    ∀ (fuel : Nat) (currentCidr : String) (w : World σ),
      Extends (fun c => c.isCreateLoadBalancer = false) w
        (getVpcInfoForBLBLoop bc subnet fuel currentCidr w).2 := by
  intro fuel
  induction fuel with
  | zero => intro _ w; exact Extends.refl _ _
  | succ fuel ih =>
    intro currentCidr w
    simp only [getVpcInfoForBLBLoop]
    split
    · exact Extends.refl _ _
    · rename_i cidr _
      split
      · exact Extends.refl _ _
      · have hs : Extends (fun c => c.isCreateLoadBalancer = false) w
            (CreateSubnet bc (reserveSubnetArgs subnet
              (bc.IPNetString (bc.NextSubnet cidr cidr.ones).1)) w).2 :=
          Extends.single (Call.CreateSubnet _) rfl rfl
        split
        · exact hs.trans (ih _ _)
        · exact hs

theorem getVpcInfoForBLB_extends (bc : Baiducloud σ) (fuel : Nat) (w : World σ) :
    Extends (fun c => c.isCreateLoadBalancer = false) w (getVpcInfoForBLB bc fuel w).2 := by
  have e1 : Extends (fun c => c.isCreateLoadBalancer = false) w
      (ListInstances bc bc.ClusterID w).2 := Extends.single (Call.ListInstances _) rfl rfl
  simp only [getVpcInfoForBLB]
  split
  · exact e1
  · exact e1
  · rename_i ins0 _ _
    have e2 := e1.trans (Extends.single (Call.DescribeSubnet ins0.SubnetId)
      (rfl : (DescribeSubnet bc ins0.SubnetId (ListInstances bc bc.ClusterID w).2).2.calls = _)
      rfl)
    split
    · exact e2
    · rename_i subnet _
      split
      · exact e2
      · have e3 := e2.trans (Extends.single (Call.ListSubnet subnet.VpcID)
          (rfl : (ListSubnet bc subnet.VpcID
            (DescribeSubnet bc ins0.SubnetId (ListInstances bc bc.ClusterID w).2).2).2.calls = _)
          rfl)
        split
        · exact e3
        · split
          · exact e3
          · exact e3.trans (getVpcInfoForBLBLoop_extends bc subnet fuel _ _)

theorem filter_isCreateLoadBalancer_nil (l : List Call)
    (h : ∀ c, c ∈ l → c.isCreateLoadBalancer = false) :
    l.filter Call.isCreateLoadBalancer = [] := by
  rw [List.filter_eq_nil_iff]
  intro c hc
  rw [h c hc]
  exact Bool.false_ne_true

theorem Call.isPhase_not_create (c : Call) (h : c.isPhase) : c.isCreateLoadBalancer = false := by
  rcases h with ⟨id, h⟩ | ⟨lb, h⟩ | ⟨ns, lb, h⟩ <;> rw [h] <;> rfl

/-- While every poll that finds a record returns the record of the identifier it asked for,
the cached record of a wait keeps its identifier. -/
theorem pollStates_BlbId_upto (bc : Baiducloud σ) (p : LoadBalancer × World σ) :
    ∀ (n : Nat),
      (∀ j, j < n → (pollAnswer bc p j).exist = true →
        (pollAnswer bc p j).lb.BlbId = (pollStates bc p j).1.BlbId) →
      (pollStates bc p n).1.BlbId = p.1.BlbId := by
  intro n
  induction n with
  | zero => intro _; rfl
  | succ n ih =>
    intro h
    have hn := ih (fun j hj => h j (by omega))
    show (if (pollAnswer bc p n).exist = true then (pollAnswer bc p n).lb
      else (pollStates bc p n).1).BlbId = p.1.BlbId
    by_cases hx : (pollAnswer bc p n).exist = true
    · rw [if_pos hx, h n (by omega) hx, hn]
    · rw [if_neg hx, hn]

/-- A wait whose polls succeed and whose poll `k` observes "available" returns the record of
that poll, in the world after `k` polls, and that record has the identifier waited for. -/
theorem waitForLoadBalancer_of_observes (bc : Baiducloud σ) (lb : LoadBalancer) (w : World σ)
    (k : Nat) (h : WaitObserves bc lb w k) :
    waitForLoadBalancer bc lb w = ((some (waitPoll bc lb w k).lb, none), waitWorld bc lb w k) ∧
    (waitPoll bc lb w k).lb.BlbId = lb.BlbId := by
  obtain ⟨h1, h10, hq, ha, hid⟩ := h
  refine ⟨waitForLoadBalancer_of_available bc lb w k h1 h10 hq ha, ?_⟩
  have hk := hid k h1 (Nat.le_refl k) ha.2.1
  have hinv := pollStates_BlbId_upto bc ({ lb with Status := "unknown" }, w) (k - 1)
    (by
      intro j hj hx
      have hj1 := hid (j + 1) (by omega) (by omega)
      simp only [waitPoll, waitQueried, Nat.add_sub_cancel] at hj1
      exact hj1 hx)
  rw [hk]
  exact hinv

/-- A wait phase of `ensureBLB` whose polls succeed hands on the record of the poll that
observes "available". -/
theorem ensureBLBWait_of_observes (bc : Baiducloud σ) (service : Service)
    (svcAnno : ServiceAnnotation) (lb : LoadBalancer) (w : World σ) (k : Nat)
    (h : WaitObserves bc lb w k) :
    ensureBLBWait bc service svcAnno lb w =
      Sum.inr ((waitPoll bc lb w k).lb, waitWorld bc lb w k) := by
  simp only [ensureBLBWait, (waitForLoadBalancer_of_observes bc lb w k h).1]

/-- Against the claim C6 as worded. In `emptyCloud` the lookup by name reports not found and
the one cloud call that follows, `ListInstances`, returns without error, an empty list; in
`lastBlockCloud` the lookup reports not found and the three cloud calls that follow return
without error the instance, its subnet and the subnets of the VPC, and the address space has
no block after the preferred one. In both runs `ensureBLB` fails at line 51 with the error of
`createBLB` and issues no `CreateLoadBalancer` request. -/
theorem ensureBLB_creates_once_counterexample :
    ((getBCELoadBalancer emptyCloud "c-1/default/svc-a" demoWorld).1.absent ∧
      (ListInstances emptyCloud "c-1"
        (getBCELoadBalancer emptyCloud "c-1/default/svc-a" demoWorld).2).1 = Except.ok [] ∧
      (ensureBLB emptyCloud 0 "k" demoService [] ⟨"", "", ""⟩ demoWorld).w.calls =
        [Call.getBCELoadBalancer "c-1/default/svc-a", Call.ListInstances "c-1"] ∧
      (ensureBLB emptyCloud 0 "k" demoService [] ⟨"", "", ""⟩ demoWorld).out =
        Outcome.ret none (some (GoError.errorf
          " Can't get VPC info for BLB: getVpcInfoForBLB failed since instance num is zero\n ")))
    ∧
    ((getBCELoadBalancer lastBlockCloud "c-1/default/svc-a" demoWorld).1.absent ∧
      (ListInstances lastBlockCloud "c-1"
        (getBCELoadBalancer lastBlockCloud "c-1/default/svc-a" demoWorld).2).1 =
          Except.ok [⟨"vpc-1", "sbn-1"⟩] ∧
      (DescribeSubnet lastBlockCloud "sbn-1"
        (ListInstances lastBlockCloud "c-1"
          (getBCELoadBalancer lastBlockCloud "c-1/default/svc-a" demoWorld).2).2).1 =
          Except.ok ⟨"sbn-1", "nat", "zoneA", "10.0.3.0/24", "vpc-1", "NAT"⟩ ∧
      (ListSubnet lastBlockCloud "vpc-1"
        (DescribeSubnet lastBlockCloud "sbn-1"
          (ListInstances lastBlockCloud "c-1"
            (getBCELoadBalancer lastBlockCloud "c-1/default/svc-a" demoWorld).2).2).2).1 =
          Except.ok [⟨"sbn-1", "nat", "zoneA", "10.0.3.0/24", "vpc-1", "NAT"⟩] ∧
      (ensureBLB lastBlockCloud 5 "k" demoService [] ⟨"", "", ""⟩ demoWorld).w.calls =
        [Call.getBCELoadBalancer "c-1/default/svc-a", Call.ListInstances "c-1",
          Call.DescribeSubnet "sbn-1", Call.ListSubnet "vpc-1"] ∧
      (ensureBLB lastBlockCloud 5 "k" demoService [] ⟨"", "", ""⟩ demoWorld).out =
        Outcome.ret none (some (GoError.errorf
          " Can't get VPC info for BLB: NextSubnet failed: <nil>\n "))) :=
  ⟨⟨by decide, rfl, by decide, by decide⟩, ⟨by decide, rfl, rfl, rfl, by decide, by decide⟩⟩

/-- C6, amended: with neither a pre-existing nor an auto-managed identifier, when the lookup
by logical name reports not found, `getVpcInfoForBLB` resolves a VPC id and a subnet id, and
every other cloud call of the run succeeds, then `ensureBLB` succeeds, returns a record whose
identifier is the one of the created load balancer, leaves that identifier under the
auto-managed key of the annotation map, and among the requests it issued exactly one is a
`CreateLoadBalancer` request, the one built by `createBLBArgs`. The calls of the run are named
one after the other, each from the world the one before it left: the lookup (`w1`), the subnet
resolution (`w2`), the create request and its response `resp` (`w3`), the describe requests,
of which number `kd` is the first to return one record, `lb0`, of the identifier asked for
(`w4`), the three waits, in each of which a poll among the first ten observes "available"
after polls without error, and the two reconcile steps (`w6`, `w8`). -/
theorem ensureBLB_creates_once (bc : Baiducloud σ) (fuel : Nat) (clusterName : String)
    (service : Service) (nodes : List Node) (svcAnno : ServiceAnnotation) (w : World σ)
    (r0 : GetResult) (w1 w2 w3 w4 w6 w8 : World σ) (vpcID subnetID : String)
    (resp : CreateLoadBalancerResponse) (kd k1 k2 k3 : Nat) (lb0 lb1 lb2 lb3 : LoadBalancer)
    (service1 : Service)
    (hE : svcAnno.LoadBalancerExistId = "")
    (hA : svcAnno.CceAutoAddLoadBalancerId = "")
    (hlook : getBCELoadBalancer bc (bc.ClusterID ++ "/" ++ bc.getServiceName service) w =
      (r0, w1))
    (habs : r0.absent)
    (hvpc : getVpcInfoForBLB bc fuel w1 = (some ((vpcID, subnetID), none), w2))
    (hcreate : CreateLoadBalancer bc (createBLBArgs bc service svcAnno vpcID subnetID) w2 =
      (Except.ok resp, w3))
    (hkd : kd ≤ 10)
    (hmiss : ∀ j, j < kd → describeMiss (describeAnswer bc ⟨resp.LoadBalancerId, true⟩ w3 j))
    (hone : describeAnswer bc ⟨resp.LoadBalancerId, true⟩ w3 kd = Except.ok [lb0])
    (hid : lb0.BlbId = resp.LoadBalancerId)
    (hw4 : w4 = describeWorld bc ⟨resp.LoadBalancerId, true⟩ w3 (kd + 1))
    (hsvc : service1 =
      service.withAnnotation bc.ServiceAnnotationCceAutoAddLoadBalancerId lb0.BlbId)
    (hwait1 : WaitObserves bc lb0 w4 k1)
    (hlb1 : lb1 = (waitPoll bc lb0 w4 k1).lb)
    (hrl : reconcileListeners bc service1 lb1 (waitWorld bc lb0 w4 k1) = (none, w6))
    (hwait2 : WaitObserves bc lb1 w6 k2)
    (hlb2 : lb2 = (waitPoll bc lb1 w6 k2).lb)
    (hrb : reconcileBackendServers bc service1 nodes lb2 (waitWorld bc lb1 w6 k2) = (none, w8))
    (hwait3 : WaitObserves bc lb2 w8 k3)
    (hlb3 : lb3 = (waitPoll bc lb2 w8 k3).lb) :
    (ensureBLB bc fuel clusterName service nodes svcAnno w).out = Outcome.ret (some lb3) none ∧
    lb3.BlbId = resp.LoadBalancerId ∧
    (ensureBLB bc fuel clusterName service nodes svcAnno w).service.lookup
      bc.ServiceAnnotationCceAutoAddLoadBalancerId = some resp.LoadBalancerId ∧
    (ensureBLB bc fuel clusterName service nodes svcAnno w).w = waitWorld bc lb2 w8 k3 ∧
    ∃ l, (ensureBLB bc fuel clusterName service nodes svcAnno w).w.calls = w.calls ++ l ∧
      l.filter Call.isCreateLoadBalancer =
        [Call.CreateLoadBalancer (createBLBArgs bc service svcAnno vpcID subnetID)] := by
  have hE2 : svcAnno.LoadBalancerExistId.length = 0 := (String.length_eq_zero_iff _).mpr hE
  have hA2 : svcAnno.CceAutoAddLoadBalancerId.length = 0 := (String.length_eq_zero_iff _).mpr hA
  -- lines 30-45: the lookup by name
  have hlk : ensureBLBLookup bc service svcAnno w = Sum.inr ⟨some r0.lb, service, svcAnno, w1⟩ := by
    simp only [ensureBLBLookup, hA2, if_true, hlook, habs.1, habs.2]
    simp
  -- lines 49-52: the create request
  have hcb : createBLB bc fuel service svcAnno w1 = (some (resp.LoadBalancerId, none), w3) := by
    simp only [createBLB, hvpc, hcreate]
  -- lines 54-57: the describe requests
  have hdb : describeBLB bc resp.LoadBalancerId service w3 = (([lb0], none), w4) := by
    rw [describeBLB_at bc resp.LoadBalancerId service w3 kd hkd hmiss, hone, hw4]
    simp
  have hres : ensureBLBResolve bc fuel service svcAnno w =
      Sum.inr ⟨some lb0, service1, svcAnno, w4⟩ := by
    simp only [ensureBLBResolve, hE2, if_true, hlk, ensureBLBCreateOrGet, hA2, hcb, hdb, hsvc]
  -- lines 100-128: the three waits and the two reconcile steps
  have hp1 := ensureBLBWait_of_observes bc service1 svcAnno lb0 w4 k1 hwait1
  have hp2 := ensureBLBWait_of_observes bc service1 svcAnno lb1 w6 k2 hwait2
  have hp3 := ensureBLBWait_of_observes bc service1 svcAnno lb2 w8 k3 hwait3
  rw [← hlb1] at hp1
  rw [← hlb2] at hp2
  rw [← hlb3] at hp3
  have hph : ensureBLBPhases bc service1 nodes svcAnno lb0 w4 =
      ⟨Outcome.ret (some lb3) none, service1, svcAnno, waitWorld bc lb2 w8 k3⟩ := by
    simp only [ensureBLBPhases, hp1, hrl, hp2, hrb, hp3]
  have hens : ensureBLB bc fuel clusterName service nodes svcAnno w =
      ⟨Outcome.ret (some lb3) none, service1, svcAnno, waitWorld bc lb2 w8 k3⟩ := by
    simp only [ensureBLB, hres, hph]
  -- the identifiers
  have hid1 : lb1.BlbId = lb0.BlbId := by
    rw [hlb1]; exact (waitForLoadBalancer_of_observes bc lb0 w4 k1 hwait1).2
  have hid2 : lb2.BlbId = lb1.BlbId := by
    rw [hlb2]; exact (waitForLoadBalancer_of_observes bc lb1 w6 k2 hwait2).2
  have hid3 : lb3.BlbId = lb2.BlbId := by
    rw [hlb3]; exact (waitForLoadBalancer_of_observes bc lb2 w8 k3 hwait3).2
  -- the requests
  have hc1 : w1.calls = w.calls ++
      [Call.getBCELoadBalancer (bc.ClusterID ++ "/" ++ bc.getServiceName service)] := by
    have := congrArg (fun p => p.2.calls) hlook
    simpa [getBCELoadBalancer] using this.symm
  obtain ⟨l2, hl2, hq2⟩ := getVpcInfoForBLB_extends bc fuel w1
  rw [hvpc] at hl2
  have hc3 : w3.calls = w2.calls ++
      [Call.CreateLoadBalancer (createBLBArgs bc service svcAnno vpcID subnetID)] := by
    have := congrArg (fun p => p.2.calls) hcreate
    simpa [CreateLoadBalancer] using this.symm
  have hc4 : w4.calls = w3.calls ++
      List.replicate (kd + 1) (Call.DescribeLoadBalancers ⟨resp.LoadBalancerId, true⟩) := by
    rw [hw4]
    exact describeWorld_calls bc _ w3 (kd + 1)
  obtain ⟨l5, hl5, hq5⟩ := (ensureBLBPhases_spec bc service1 nodes svcAnno lb0 w4).1
  rw [hph] at hl5
  refine ⟨by rw [hens], by rw [hid3, hid2, hid1, hid], ?_, by rw [hens], ?_⟩
  · rw [hens, hsvc, hid]
    cases hann : service.Annotations <;>
      simp [Service.withAnnotation, Service.lookup, hann, GoMap.get_set_self]
  · refine ⟨[Call.getBCELoadBalancer (bc.ClusterID ++ "/" ++ bc.getServiceName service)] ++ l2 ++
      [Call.CreateLoadBalancer (createBLBArgs bc service svcAnno vpcID subnetID)] ++
      List.replicate (kd + 1) (Call.DescribeLoadBalancers ⟨resp.LoadBalancerId, true⟩) ++ l5,
      ?_, ?_⟩
    · rw [hens]
      show (waitWorld bc lb2 w8 k3).calls = _
      rw [hl5, hc4, hc3, hl2, hc1]
      simp only [List.append_assoc]
    · have hrep : (List.replicate (kd + 1)
          (Call.DescribeLoadBalancers ⟨resp.LoadBalancerId, true⟩)).filter
            Call.isCreateLoadBalancer = [] := by
        apply filter_isCreateLoadBalancer_nil
        intro c hc
        rw [List.eq_of_mem_replicate hc]
        rfl
      simp only [List.filter_append, filter_isCreateLoadBalancer_nil l2 hq2, hrep,
        filter_isCreateLoadBalancer_nil l5 (fun c hc => Call.isPhase_not_create c (hq5 c hc))]
      simp [List.filter, Call.isCreateLoadBalancer]

/-- Worked instance of amended C6: in `realCloud` no load balancer exists before the call.
The lookup finds nothing, the subnet of the first instance is usable, the create request
returns "lb-1", the first describe request does not see it yet and the second does, the first
wait observes "available" at its third poll and the other two at their first. The call returns
the record of "lb-1", the annotation map holds "lb-1", and one `CreateLoadBalancer` request was
issued. -/
theorem ensureBLB_creates_once_witness :
    (ensureBLB realCloud 0 "k" demoService [] ⟨"", "", ""⟩ demoWorld).out =
      Outcome.ret (some realLb) none ∧
    realLb.BlbId = "lb-1" ∧
    (ensureBLB realCloud 0 "k" demoService [] ⟨"", "", ""⟩ demoWorld).service.lookup
      realCloud.ServiceAnnotationCceAutoAddLoadBalancerId = some "lb-1" ∧
    (ensureBLB realCloud 0 "k" demoService [] ⟨"", "", ""⟩ demoWorld).w =
      waitWorld realCloud realLb realW8 1 ∧
    ∃ l, (ensureBLB realCloud 0 "k" demoService [] ⟨"", "", ""⟩ demoWorld).w.calls =
        demoWorld.calls ++ l ∧
      l.filter Call.isCreateLoadBalancer =
        [Call.CreateLoadBalancer
          (createBLBArgs realCloud demoService ⟨"", "", ""⟩ "vpc-1" "sbn-1")] :=
  ensureBLB_creates_once realCloud 0 "k" demoService [] ⟨"", "", ""⟩ demoWorld
    (getBCELoadBalancer realCloud "c-1/default/svc-a" demoWorld).1
    realW1 realW2 realW3 realW4 realW6 realW8 "vpc-1" "sbn-1"
    ⟨"lb-1", goBytes "c-1/default/svc-a", "10.0.0.1"⟩ 1 3 1 1 realLb0 realLb realLb realLb
    realService1
    rfl rfl rfl (by decide) rfl rfl (by decide)
    (by intro j hj; interval_cases j; exact ⟨[], rfl, by decide⟩)
    rfl rfl rfl rfl
    ⟨by decide, by decide, by intro j h1 h2; interval_cases j <;> decide, by decide,
      by intro j h1 h2 _; interval_cases j <;> decide⟩
    (by decide) rfl
    ⟨by decide, by decide, by intro j h1 h2; omega, by decide,
      by intro j h1 h2 _; interval_cases j; decide⟩
    (by decide) rfl
    ⟨by decide, by decide, by intro j h1 h2; omega, by decide,
      by intro j h1 h2 _; interval_cases j; decide⟩
    (by decide)

/-! ## Proofs: the subnet loop of `getVpcInfoForBLB` -/

/-- One pass of the subnet loop in which the current text parses and a next block exists:
the request built from that block is issued, and the loop either returns the new subnet or
goes on from the text of the block just tried. -/
theorem getVpcInfoForBLBLoop_succ (bc : Baiducloud σ) (subnet : Subnet) (fuel : Nat)
    (currentCidr : String) (w : World σ) (c : IPNet)
    (hp : bc.ParseCIDR currentCidr = Except.ok c) (hn : (bc.NextSubnet c c.ones).2 = false) :
    getVpcInfoForBLBLoop bc subnet (fuel + 1) currentCidr w =
      match (CreateSubnet bc (reserveSubnetArgs subnet
          (bc.IPNetString (bc.NextSubnet c c.ones).1)) w).1 with
      | Except.error _ =>
        getVpcInfoForBLBLoop bc subnet fuel (bc.IPNetString (bc.NextSubnet c c.ones).1)
          (CreateSubnet bc (reserveSubnetArgs subnet
            (bc.IPNetString (bc.NextSubnet c c.ones).1)) w).2
      | Except.ok newSubnetId =>
        (some ((subnet.VpcID, newSubnetId), none),
          (CreateSubnet bc (reserveSubnetArgs subnet
            (bc.IPNetString (bc.NextSubnet c c.ones).1)) w).2) := by
  rw [getVpcInfoForBLBLoop]
  simp only [hp, hn, Bool.false_eq_true, if_false]

/-- The `CreateSubnet` requests of the subnet loop, in order: each is built by
`reserveSubnetArgs` from the preferred subnet, and their CIDR texts form a chain of next
blocks that starts from the text the loop was entered with. -/
theorem getVpcInfoForBLBLoop_chain (bc : Baiducloud σ) (subnet : Subnet) :
    ∀ (fuel : Nat) (currentCidr : String) (w : World σ),
      ∃ cidrs : List String,
        (getVpcInfoForBLBLoop bc subnet fuel currentCidr w).2.calls =
          w.calls ++ cidrs.map (fun cidr => Call.CreateSubnet (reserveSubnetArgs subnet cidr)) ∧
        List.Chain (nextBlock bc) currentCidr cidrs := by
  intro fuel
  induction fuel with
  | zero =>
    intro currentCidr w
    exact ⟨[], by simp [getVpcInfoForBLBLoop], List.Chain.nil⟩
  | succ fuel ih =>
    intro currentCidr w
    cases hp : bc.ParseCIDR currentCidr with
    | error e =>
      refine ⟨[], ?_, List.Chain.nil⟩
      rw [getVpcInfoForBLBLoop]
      simp only [hp, List.map_nil, List.append_nil]
    | ok c =>
      cases hn : (bc.NextSubnet c c.ones).2 with
      | true =>
        refine ⟨[], ?_, List.Chain.nil⟩
        rw [getVpcInfoForBLBLoop]
        simp only [hp, hn, if_true, List.map_nil, List.append_nil]
      | false =>
        have hstep := getVpcInfoForBLBLoop_succ bc subnet fuel currentCidr w c hp hn
        have hnb : nextBlock bc currentCidr (bc.IPNetString (bc.NextSubnet c c.ones).1) :=
          ⟨c, hp, hn, rfl⟩
        have hcalls : (CreateSubnet bc (reserveSubnetArgs subnet
            (bc.IPNetString (bc.NextSubnet c c.ones).1)) w).2.calls =
            w.calls ++ [Call.CreateSubnet (reserveSubnetArgs subnet
              (bc.IPNetString (bc.NextSubnet c c.ones).1))] := rfl
        cases hr : (CreateSubnet bc (reserveSubnetArgs subnet
            (bc.IPNetString (bc.NextSubnet c c.ones).1)) w).1 with
        | error e =>
          rw [hr] at hstep
          obtain ⟨cidrs, hc, hchain⟩ := ih (bc.IPNetString (bc.NextSubnet c c.ones).1)
            (CreateSubnet bc (reserveSubnetArgs subnet
              (bc.IPNetString (bc.NextSubnet c c.ones).1)) w).2
          refine ⟨bc.IPNetString (bc.NextSubnet c c.ones).1 :: cidrs, ?_,
            List.Chain.cons hnb hchain⟩
          rw [hstep, hc, hcalls]
          simp
        | ok newSubnetId =>
          rw [hr] at hstep
          refine ⟨[bc.IPNetString (bc.NextSubnet c c.ones).1], ?_,
            List.Chain.cons hnb List.Chain.nil⟩
          rw [hstep, hcalls]
          simp

/-- C11: the `CreateSubnet` requests issued by the subnet loop of `getVpcInfoForBLB` are, in
order, the requests with name "CCE-Reserve", type "BCC" and the zone and VPC of the preferred
subnet whose CIDR texts `cidrs` form a chain of next blocks: the first is the next block (for
the mask length of the parsed network) after the text the loop is entered with, each later one
is the next block after the text of the request before it, and when a next block that
exists never prints as the text it was computed from, no request repeats the CIDR of the one
before it.
A pass whose next-block computation reports that no block exists returns the error of line 87
without issuing a request. `getVpcInfoForBLB` enters the loop with the CIDR of the preferred
subnet. -/
theorem getVpcInfoForBLBLoop_requests (bc : Baiducloud σ) (subnet : Subnet) (fuel : Nat)
    (currentCidr : String) (w : World σ) :
    (∃ cidrs : List String,
      (getVpcInfoForBLBLoop bc subnet fuel currentCidr w).2.calls =
        w.calls ++ cidrs.map (fun cidr => Call.CreateSubnet
          { Name := "CCE-Reserve", ZoneName := subnet.ZoneName, Cidr := cidr,
            VpcID := subnet.VpcID, SubnetType := "BCC" }) ∧
      List.Chain (nextBlock bc) currentCidr cidrs ∧
      ((∀ text c, bc.ParseCIDR text = Except.ok c → (bc.NextSubnet c c.ones).2 = false →
          bc.IPNetString (bc.NextSubnet c c.ones).1 ≠ text) →
        List.Chain (fun prev cidr => cidr ≠ prev) currentCidr cidrs)) ∧
    (∀ c, bc.ParseCIDR currentCidr = Except.ok c → (bc.NextSubnet c c.ones).2 = true →
      getVpcInfoForBLBLoop bc subnet (fuel + 1) currentCidr w =
        (some (("", ""), some (GoError.errorf "NextSubnet failed: <nil>")), w)) ∧
    (∀ (w0 : World σ) (ins0 : Instance) (rest : List Instance) (subnets : List Subnet),
      (ListInstances bc bc.ClusterID w0).1 = Except.ok (ins0 :: rest) →
      (DescribeSubnet bc ins0.SubnetId (ListInstances bc bc.ClusterID w0).2).1 =
        Except.ok subnet →
      subnet.SubnetType ≠ "BCC" →
      (ListSubnet bc subnet.VpcID
        (DescribeSubnet bc ins0.SubnetId (ListInstances bc bc.ClusterID w0).2).2).1 =
          Except.ok subnets →
      findReservedSubnet subnets = none →
      getVpcInfoForBLB bc fuel w0 =
        getVpcInfoForBLBLoop bc subnet fuel subnet.Cidr
          (ListSubnet bc subnet.VpcID
            (DescribeSubnet bc ins0.SubnetId (ListInstances bc bc.ClusterID w0).2).2).2) := by
  refine ⟨?_, ?_, ?_⟩
  · obtain ⟨cidrs, hc, hchain⟩ := getVpcInfoForBLBLoop_chain bc subnet fuel currentCidr w
    refine ⟨cidrs, hc, hchain, ?_⟩
    intro hne
    refine List.Chain.imp ?_ hchain
    rintro prev cidr ⟨c, hp, hn, he⟩
    rw [he]
    exact hne prev c hp hn
  · intro c hp hn
    rw [getVpcInfoForBLBLoop]
    simp only [hp, hn, if_true]
  · intro w0 ins0 rest subnets h1 h2 h3 h4 h5
    simp only [getVpcInfoForBLB, h1, h2, h3, if_false, h4, h5]

/-- In the address space of `fullCloud` a next block that exists never prints as the text it
was computed from. -/
theorem fullCloud_nextBlock_ne (text : String) (c : IPNet)
    (hp : fullCloud.ParseCIDR text = Except.ok c)
    (hn : (fullCloud.NextSubnet c c.ones).2 = false) :
    fullCloud.IPNetString (fullCloud.NextSubnet c c.ones).1 ≠ text := by
  simp only [fullCloud, synthCloud] at hp hn ⊢
  split at hp
  · cases hp
    rename_i h
    rw [h]
    decide
  · split at hp
    · cases hp
      rename_i h
      rw [h]
      decide
    · split at hp
      · cases hp
        rename_i h
        rw [h]
        decide
      · split at hp
        · cases hp
          simp at hn
        · cases hp

/-- Worked instance of C11: in `fullCloud` every creation fails; the loop asks for the blocks
"10.0.1.0/24", "10.0.2.0/24", "10.0.3.0/24" in turn, never the same block twice in a row, and
returns the error of line 87 once the address space is exhausted. -/
theorem getVpcInfoForBLBLoop_requests_witness :
    (∃ cidrs : List String,
      (getVpcInfoForBLBLoop fullCloud natSubnet 9 "10.0.0.0/24" demoWorld).2.calls =
        demoWorld.calls ++ cidrs.map (fun cidr => Call.CreateSubnet
          { Name := "CCE-Reserve", ZoneName := natSubnet.ZoneName, Cidr := cidr,
            VpcID := natSubnet.VpcID, SubnetType := "BCC" }) ∧
      List.Chain (nextBlock fullCloud) "10.0.0.0/24" cidrs ∧
      List.Chain (fun prev cidr => cidr ≠ prev) "10.0.0.0/24" cidrs) ∧
    getVpcInfoForBLBLoop fullCloud natSubnet (0 + 1) "10.0.3.0/24" demoWorld =
      (some (("", ""), some (GoError.errorf "NextSubnet failed: <nil>")), demoWorld) ∧
    (getVpcInfoForBLBLoop fullCloud natSubnet 9 "10.0.0.0/24" demoWorld).2.calls =
      [Call.CreateSubnet ⟨"CCE-Reserve", "zoneA", "10.0.1.0/24", "vpc-1", "BCC"⟩,
        Call.CreateSubnet ⟨"CCE-Reserve", "zoneA", "10.0.2.0/24", "vpc-1", "BCC"⟩,
        Call.CreateSubnet ⟨"CCE-Reserve", "zoneA", "10.0.3.0/24", "vpc-1", "BCC"⟩] ∧
    (getVpcInfoForBLBLoop fullCloud natSubnet 9 "10.0.0.0/24" demoWorld).1 =
      some (("", ""), some (GoError.errorf "NextSubnet failed: <nil>")) ∧
    getVpcInfoForBLB fullCloud 9 demoWorld =
      getVpcInfoForBLBLoop fullCloud natSubnet 9 natSubnet.Cidr
        (ListSubnet fullCloud natSubnet.VpcID
          (DescribeSubnet fullCloud "sbn-1"
            (ListInstances fullCloud fullCloud.ClusterID demoWorld).2).2).2 :=
  ⟨match (getVpcInfoForBLBLoop_requests fullCloud natSubnet 9 "10.0.0.0/24" demoWorld).1 with
    | ⟨cidrs, hc, hchain, hdist⟩ => ⟨cidrs, hc, hchain, hdist fullCloud_nextBlock_ne⟩,
    (getVpcInfoForBLBLoop_requests fullCloud natSubnet 0 "10.0.3.0/24" demoWorld).2.1 ⟨3, 24⟩
      rfl rfl,
    by decide, by decide,
    (getVpcInfoForBLBLoop_requests fullCloud natSubnet 9 "10.0.0.0/24" demoWorld).2.2 demoWorld
      ⟨"vpc-1", "sbn-1"⟩ [] [] rfl rfl (by decide) rfl rfl⟩

/-! ## Proofs: the name looked up and the name created -/

theorem describeBLBLoop_extends (bc : Baiducloud σ) (args : DescribeLoadBalancersArgs) :
    ∀ (left : Nat) (w : World σ),
      Extends (fun _ => True) w (describeBLBLoop bc args left w).2 := by
  intro left
  induction left with
  | zero => intro w; exact Extends.refl _ _
  | succ left ih =>
    intro w
    have h1 : Extends (fun _ => True) w (DescribeLoadBalancers bc args w).2 :=
      Extends.single (Call.DescribeLoadBalancers args) rfl trivial
    simp only [describeBLBLoop]
    split
    · exact h1
    · split
      · exact h1
      · exact h1.trans (ih _)

theorem describeBLB_extends (bc : Baiducloud σ) (id : String) (service : Service)
    (w : World σ) : Extends (fun _ => True) w (describeBLB bc id service w).2 := by
  rw [describeBLB_eq_loop]
  exact describeBLBLoop_extends bc _ 11 w

theorem createBLB_extends (bc : Baiducloud σ) (fuel : Nat) (service : Service)
    (svcAnno : ServiceAnnotation) (w : World σ) :
    Extends (fun _ => True) w (createBLB bc fuel service svcAnno w).2 := by
  have h1 : Extends (fun _ => True) w (getVpcInfoForBLB bc fuel w).2 :=
    (getVpcInfoForBLB_extends bc fuel w).mono (fun _ _ => trivial)
  simp only [createBLB]
  split
  · exact h1
  · exact h1
  · rename_i vpcID subnetID _
    have h2 : Extends (fun _ => True) w
        (CreateLoadBalancer bc (createBLBArgs bc service svcAnno vpcID subnetID)
          (getVpcInfoForBLB bc fuel w).2).2 :=
      h1.trans (Extends.single (Call.CreateLoadBalancer _) rfl trivial)
    split
    · exact h2
    · exact h2

/-- Lines 47-74 of `ensureBLB` only add requests to those issued before. -/
theorem ensureBLBCreateOrGet_extends (bc : Baiducloud σ) (fuel : Nat) (s : Resolved σ) :
    (∀ fin, ensureBLBCreateOrGet bc fuel s = Sum.inl fin → Extends (fun _ => True) s.w fin.w) ∧
    (∀ s1, ensureBLBCreateOrGet bc fuel s = Sum.inr s1 → Extends (fun _ => True) s.w s1.w) := by
  have hc := createBLB_extends bc fuel s.service s.svcAnno s.w
  have hg : Extends (fun _ => True) s.w
      (getBCELoadBalancerById bc s.svcAnno.CceAutoAddLoadBalancerId s.w).2 :=
    Extends.single (Call.getBCELoadBalancerById _) rfl trivial
  constructor
  · intro fin h
    simp only [ensureBLBCreateOrGet] at h
    split at h
    · split at h
      · cases h
        exact hc
      · cases h
        exact hc
      · rename_i x0 id0 hc0
        have hd := hc.trans (describeBLB_extends bc id0 s.service
          (createBLB bc fuel s.service s.svcAnno s.w).2)
        split at h
        · cases h
          exact hd
        · cases h
          exact hd
        · cases h
    · split at h
      · split at h
        · cases h
          exact hg
        · split at h
          · cases h
            exact hg
          · cases h
      · cases h
  · intro s1 h
    simp only [ensureBLBCreateOrGet] at h
    split at h
    · split at h
      · cases h
      · cases h
      · rename_i x0 id0 hc0
        have hd := hc.trans (describeBLB_extends bc id0 s.service
          (createBLB bc fuel s.service s.svcAnno s.w).2)
        split at h
        · cases h
        · cases h
        · cases h
          exact hd
    · split at h
      · split at h
        · cases h
        · split at h
          · cases h
          · cases h
            exact hg
      · cases h
        exact Extends.refl _ _

/-- With no auto-managed identifier, lines 30-45 of `ensureBLB` issue exactly one request: the
lookup by the name `ClusterID + "/" + getServiceName(service)`, in full. -/
theorem ensureBLBLookup_calls (bc : Baiducloud σ) (service : Service)
    (svcAnno : ServiceAnnotation) (w : World σ) (hA : svcAnno.CceAutoAddLoadBalancerId = "") :
    (∀ fin, ensureBLBLookup bc service svcAnno w = Sum.inl fin →
      fin.w.calls = w.calls ++
        [Call.getBCELoadBalancer (bc.ClusterID ++ "/" ++ bc.getServiceName service)]) ∧
    (∀ s, ensureBLBLookup bc service svcAnno w = Sum.inr s →
      s.w.calls = w.calls ++
        [Call.getBCELoadBalancer (bc.ClusterID ++ "/" ++ bc.getServiceName service)]) := by
  have hA2 : svcAnno.CceAutoAddLoadBalancerId.length = 0 := (String.length_eq_zero_iff _).mpr hA
  constructor
  · intro fin h
    simp only [ensureBLBLookup, hA2, if_true] at h
    split at h
    · cases h
      rfl
    · split at h <;> cases h
  · intro s h
    simp only [ensureBLBLookup, hA2, if_true] at h
    split at h
    · cases h
    · split at h <;> cases h <;> rfl

/-- With neither identifier set, the first request of `ensureBLB` is the lookup by the name
`ClusterID + "/" + getServiceName(service)`, in full. -/
theorem ensureBLB_first_request (bc : Baiducloud σ) (fuel : Nat) (clusterName : String)
    (service : Service) (nodes : List Node) (svcAnno : ServiceAnnotation) (w : World σ)
    (hE : svcAnno.LoadBalancerExistId = "") (hA : svcAnno.CceAutoAddLoadBalancerId = "") :
    ∃ l, (ensureBLB bc fuel clusterName service nodes svcAnno w).w.calls =
      w.calls ++
        Call.getBCELoadBalancer (bc.ClusterID ++ "/" ++ bc.getServiceName service) :: l := by
  have hE2 : svcAnno.LoadBalancerExistId.length = 0 := (String.length_eq_zero_iff _).mpr hE
  have hlk := ensureBLBLookup_calls bc service svcAnno w hA
  have fromExt : ∀ (w1 w2 : World σ) (P : Call → Prop),
      w1.calls = w.calls ++
        [Call.getBCELoadBalancer (bc.ClusterID ++ "/" ++ bc.getServiceName service)] →
      Extends P w1 w2 →
      ∃ l, w2.calls = w.calls ++
        Call.getBCELoadBalancer (bc.ClusterID ++ "/" ++ bc.getServiceName service) :: l := by
    intro w1 w2 P h1 h2
    obtain ⟨l, hl, _⟩ := h2
    exact ⟨l, by rw [hl, h1, List.append_assoc]; rfl⟩
  simp only [ensureBLB, ensureBLBResolve, hE2, if_true]
  cases h1 : ensureBLBLookup bc service svcAnno w with
  | inl fin => exact ⟨[], by simpa using hlk.1 fin h1⟩
  | inr s =>
    have hs := hlk.2 s h1
    simp only []
    cases h2 : ensureBLBCreateOrGet bc fuel s with
    | inl fin =>
      exact fromExt s.w fin.w _ hs ((ensureBLBCreateOrGet_extends bc fuel s).1 fin h2)
    | inr s1 =>
      have e1 := (ensureBLBCreateOrGet_extends bc fuel s).2 s1 h2
      simp only []
      cases h3 : s1.lb with
      | none => exact fromExt s.w s1.w _ hs e1
      | some lb =>
        exact fromExt s.w _ _ hs
          (e1.trans ((ensureBLBPhases_spec bc s1.service nodes s1.svcAnno lb s1.w).1.mono
            (fun _ _ => trivial)))

/-- Against the claim C12 as worded: in `longCloud` the cluster id, a slash and the service
name make 77 one-byte characters; `ensureBLB` looks the load balancer up by all 77, and in the
same run `createBLB` creates it under the first 65. -/
theorem ensureBLB_lookup_name_counterexample :
    (ensureBLB longCloud 0 "k" demoService [] ⟨"", "", ""⟩ demoWorld).w.calls.take 1 =
      [Call.getBCELoadBalancer
        "c-1/default/a-very-long-service-name-that-goes-on-and-on-and-on-and-on-and-on"] ∧
    (ensureBLB longCloud 0 "k" demoService [] ⟨"", "", ""⟩ demoWorld).w.calls.filter
        Call.isCreateLoadBalancer =
      [Call.CreateLoadBalancer
        ⟨goBytes "c-1/default/a-very-long-service-name-that-goes-on-and-on-and-on-a", "vpc-1",
          "sbn-1", "auto generated by cce:c-1", false⟩] ∧
    goBytes "c-1/default/a-very-long-service-name-that-goes-on-and-on-and-on-and-on-and-on" ≠
      goBytes "c-1/default/a-very-long-service-name-that-goes-on-and-on-and-on-a" := by
  refine ⟨by decide, ?_, by decide⟩
  set_option maxRecDepth 8000 in decide

/-- C12, amended: with neither identifier set, the first request of `ensureBLB` is the lookup
by the full string `ClusterID + "/" + getServiceName(service)`. The `Name` under which
`createBLB` creates the load balancer for the same cluster id and service is that string when
its length, in bytes as Go counts it, is at most 65; otherwise it is the first 65 bytes of it,
which is a different string. In either case the name created is an initial segment of the name
looked up. -/
theorem ensureBLB_lookup_name (bc : Baiducloud σ) (fuel : Nat) (clusterName : String)
    (service : Service) (nodes : List Node) (svcAnno : ServiceAnnotation) (w : World σ)
    (vpcID subnetID : String) :
    (svcAnno.LoadBalancerExistId = "" → svcAnno.CceAutoAddLoadBalancerId = "" →
      ∃ l, (ensureBLB bc fuel clusterName service nodes svcAnno w).w.calls =
        w.calls ++
          Call.getBCELoadBalancer (bc.ClusterID ++ "/" ++ bc.getServiceName service) :: l) ∧
    ((goBytes (bc.ClusterID ++ "/" ++ bc.getServiceName service)).length ≤ 65 →
      (createBLBArgs bc service svcAnno vpcID subnetID).Name =
        goBytes (bc.ClusterID ++ "/" ++ bc.getServiceName service)) ∧
    (65 < (goBytes (bc.ClusterID ++ "/" ++ bc.getServiceName service)).length →
      (createBLBArgs bc service svcAnno vpcID subnetID).Name =
        (goBytes (bc.ClusterID ++ "/" ++ bc.getServiceName service)).take 65 ∧
      (createBLBArgs bc service svcAnno vpcID subnetID).Name ≠
        goBytes (bc.ClusterID ++ "/" ++ bc.getServiceName service)) ∧
    (∃ t, goBytes (bc.ClusterID ++ "/" ++ bc.getServiceName service) =
      (createBLBArgs bc service svcAnno vpcID subnetID).Name ++ t) := by
  refine ⟨?_, ?_, ?_, ?_⟩
  · intro hE hA
    exact ensureBLB_first_request bc fuel clusterName service nodes svcAnno w hE hA
  · intro h
    have h2 : ¬ (goBytes (bc.ClusterID ++ "/" ++ bc.getServiceName service)).length > 65 := by
      omega
    simp only [createBLBArgs, h2, if_false]
  · intro h
    have h2 : (goBytes (bc.ClusterID ++ "/" ++ bc.getServiceName service)).length > 65 := h
    have hname : (createBLBArgs bc service svcAnno vpcID subnetID).Name =
        (goBytes (bc.ClusterID ++ "/" ++ bc.getServiceName service)).take 65 := by
      simp only [createBLBArgs, h2, if_true]
    refine ⟨hname, ?_⟩
    intro heq
    have hlen : (createBLBArgs bc service svcAnno vpcID subnetID).Name.length ≤ 65 := by
      rw [hname, List.length_take]
      omega
    rw [heq] at hlen
    omega
  · by_cases h : (goBytes (bc.ClusterID ++ "/" ++ bc.getServiceName service)).length > 65
    · simp only [createBLBArgs, h, if_true]
      exact ⟨_, (List.take_append_drop 65 _).symm⟩
    · simp only [createBLBArgs, h, if_false]
      exact ⟨[], by simp⟩

/-- Worked instances of amended C12. In `longCloud` the first request is the lookup by the
name of 77 bytes, and the name created is its first 65 bytes, a different string. In
`wideCloud` the name looked up has 35 characters and 75 bytes, and the name created, its first
65 bytes, is again a different string. -/
theorem ensureBLB_lookup_name_witness :
    (∃ l, (ensureBLB longCloud 0 "k" demoService [] ⟨"", "", ""⟩ demoWorld).w.calls =
      demoWorld.calls ++
        Call.getBCELoadBalancer
          (longCloud.ClusterID ++ "/" ++ longCloud.getServiceName demoService) :: l) ∧
    ((createBLBArgs longCloud demoService ⟨"", "", ""⟩ "vpc-1" "sbn-1").Name =
        (goBytes (longCloud.ClusterID ++ "/" ++ longCloud.getServiceName demoService)).take 65 ∧
      (createBLBArgs longCloud demoService ⟨"", "", ""⟩ "vpc-1" "sbn-1").Name ≠
        goBytes (longCloud.ClusterID ++ "/" ++ longCloud.getServiceName demoService)) ∧
    ((createBLBArgs wideCloud demoService ⟨"", "", ""⟩ "vpc-1" "sbn-1").Name =
        (goBytes (wideCloud.ClusterID ++ "/" ++ wideCloud.getServiceName demoService)).take 65 ∧
      (createBLBArgs wideCloud demoService ⟨"", "", ""⟩ "vpc-1" "sbn-1").Name ≠
        goBytes (wideCloud.ClusterID ++ "/" ++ wideCloud.getServiceName demoService)) :=
  ⟨(ensureBLB_lookup_name longCloud 0 "k" demoService [] ⟨"", "", ""⟩ demoWorld
      "vpc-1" "sbn-1").1 rfl rfl,
    (ensureBLB_lookup_name longCloud 0 "k" demoService [] ⟨"", "", ""⟩ demoWorld
      "vpc-1" "sbn-1").2.2.1 (by decide),
    (ensureBLB_lookup_name wideCloud 0 "k" demoService [] ⟨"", "", ""⟩ demoWorld
      "vpc-1" "sbn-1").2.2.1 (by decide)⟩

end CloudProvider
